import Mathlib

/-!
# SimpleCommand: command decoding, dispatch and response transmission

A shallow embedding of `src/command/command.c`, of `ble_cmd_data_send` and
`on_write` (`src/ble_services/ble_cmd.c`) and of `cmd_data_handler` and
`gatt_evt_handler` (`src/main.c`).

Conventions of the embedding:

* bytes, enum values and return codes are natural numbers;
* the global `m_command` is passed explicitly as a `command_t` value;
* a `uint8_t const *raw` pointer is the memory it points to, a function from
  the offset to the byte stored there.  The C code never consults
  `rawLength`, so what it reads past the received bytes is whatever that
  memory holds;
* a C string (`char *message`) is the list of its characters before the
  terminating NUL;
* the calls of `bleEventInitiate`, the returns of `ble_cmd_data_send` and the
  calls that leave the program (`sd_ble_gatts_hvx`, `nrf_delay_ms`) are
  recorded, in order, in a list of `action`s; `NRF_LOG_*` calls are omitted.
-/

set_option linter.unusedVariables false

namespace SimpleCommand

/-! ## command.h -/

def NO_COMMAND : Nat := 0xFE
def FAST_BLINK : Nat := 0x01
def SLOW_BLINK : Nat := 0x02
def ALT_BLINK : Nat := 0x03
def OFF : Nat := 0x04
def ABORT : Nat := 0xFF

def COMMAND_SUCCESS : Int := 1
def COMMAND_FAILURE : Int := 0

/-! ## commandInternal.h -/

def COMMAND_ARG_DATA_FIELD_MAX_LENGTH : Nat := 4095

/-- The struct `command_packet_t`: id, argument length and argument bytes. -/
structure command_packet_t where
  commandID : Nat
  argLength : Nat
  argData : List Nat
deriving DecidableEq

/-- The enum `command_state_t`. -/
inductive command_state_t where
  | READY_FOR_COMMAND
  | DECODING_COMMAND
  | PROCESSING_COMMAND
  | ACCEPT_ARG_DATA
  | INVALID
deriving DecidableEq

open command_state_t

/-- The struct `command_t`, the type of the global `m_command`. -/
structure command_t where
  initialized : Bool
  rawCommandReceived : Bool
  commandValid : Bool
  command : command_packet_t
  commandState : command_state_t
deriving DecidableEq

/-! ## C library functions used by command.c -/

/-- The C library `isspace` in the "C" locale. -/
def isspace (c : Nat) : Bool :=
  c == 32 || (decide (9 ≤ c) && decide (c ≤ 13))

/-- Value of a character as a base-16 digit, as `strtol` reads it. -/
def strtolDigit16 (c : Nat) : Option Nat :=
  if 0x30 ≤ c ∧ c ≤ 0x39 then some (c - 0x30)
  else if 0x41 ≤ c ∧ c ≤ 0x46 then some (c - 0x41 + 10)
  else if 0x61 ≤ c ∧ c ≤ 0x66 then some (c - 0x61 + 10)
  else none

/-- The digit loop of `strtol`: accumulate base-16 digits up to the first
character that is not one. -/
def strtolDigits16 (acc : Nat) : List Nat → Nat
  | [] => acc
  | c :: cs =>
    match strtolDigit16 c with
    | some v => strtolDigits16 (acc * 16 + v) cs
    | none => acc

/-- The characters of the C string stored in a buffer: those before the first
NUL. -/
def cString (buf : List Nat) : List Nat :=
  buf.takeWhile (fun c => c != 0)

def LONG_MAX : Int := 2147483647
def LONG_MIN : Int := -2147483648

/-- The C library call `strtol(s, NULL, 16)` on the string held in the buffer
`s` (ISO C 7.22.1.4): leading white space, an optional sign, an optional
`0x`/`0X` prefix, then the longest run of hexadecimal digits; the result is
clamped to the range of `long` (32 bits on the target). -/
def strtol16 (s : List Nat) : Int :=
  let s1 := (cString s).dropWhile isspace
  let negative : Bool := s1.head? == some 0x2D
  let s2 : List Nat :=
    if s1.head? == some 0x2D || s1.head? == some 0x2B then s1.tail else s1
  let prefixed : Bool :=
    s2.head? == some 0x30 &&
    (s2.get? 1 == some 0x78 || s2.get? 1 == some 0x58) &&
    ((s2.get? 2).bind strtolDigit16).isSome
  let s3 : List Nat := if prefixed then s2.drop 2 else s2
  let v : Int := (strtolDigits16 0 s3 : Nat)
  if negative then max (-v) LONG_MIN else min v LONG_MAX

/-- The bytes `strncpy(dest, src + i, n)` writes: the characters of the
source up to its first NUL, then NUL padding, `n` bytes in all. -/
def strncpyBytes (src : Nat → Nat) (i : Nat) : Nat → List Nat
  | 0 => []
  | n + 1 =>
    if src i = 0 then List.replicate (n + 1) 0
    else src i :: strncpyBytes src (i + 1) n

/-- The array `dest` after `strncpy(dest, src + i, n)`: its first `n` bytes
are overwritten, the others keep their value. -/
def strncpy (dest : List Nat) (src : Nat → Nat) (i n : Nat) : List Nat :=
  strncpyBytes src i n ++ dest.drop n

/-! ## command.c: the decoder -/

/-- The C function `isASCIIHexDigit`. -/
def isASCIIHexDigit (c : Nat) : Bool :=
  let okay := decide (c ≥ 0x30) && decide (c ≤ 0x39)
  let okay := okay || (decide (c ≥ 0x41) && decide (c ≤ 0x46))
  let okay := okay || (decide (c ≥ 0x61) && decide (c ≤ 0x66))
  okay

/-- The C function `isValidCommandID`, reading the global `m_command`. -/
def isValidCommandID (m_command : command_t) : Bool :=
  let valid :=
    m_command.command.commandID == NO_COMMAND ||
    m_command.command.commandID == FAST_BLINK ||
    m_command.command.commandID == SLOW_BLINK ||
    m_command.command.commandID == ALT_BLINK ||
    m_command.command.commandID == OFF ||
    m_command.command.commandID == ABORT
  valid

/-- The C function `commandInit`. -/
def commandInit (m_command : command_t) : command_t :=
  { m_command with
    initialized := true
    commandState := READY_FOR_COMMAND
    rawCommandReceived := false
    commandValid := false }

/-- The exit through which `receiveRawCommand` returns. -/
inductive decode_exit where
  | dropped
  | invalidCommandID
  | malformedLength
  | decoded
deriving DecidableEq

/-- The C function `receiveRawCommand`, returning the new value of `m_command`
together with the exit taken. -/
def receiveRawCommandExit (m_command : command_t) (raw : Nat → Nat) (rawLength : Nat) :
    command_t × decode_exit :=
  if m_command.commandState ≠ READY_FOR_COMMAND then
    (m_command, decode_exit.dropped)
  else
    let m1 : command_t :=
      { m_command with commandState := DECODING_COMMAND, commandValid := false }
    let m2 : command_t := { m1 with command := { m1.command with commandID := raw 0 } }
    if !isValidCommandID m2 then
      ({ m2 with commandState := READY_FOR_COMMAND, rawCommandReceived := false },
        decode_exit.invalidCommandID)
    else if !(isASCIIHexDigit (raw 1) && isASCIIHexDigit (raw 2) && isASCIIHexDigit (raw 3)) then
      ({ m2 with commandState := READY_FOR_COMMAND, rawCommandReceived := false },
        decode_exit.malformedLength)
    else
      let hex : List Nat := [raw 1, raw 2, raw 3, 0]
      let len : Nat := (strtol16 hex % 65536).toNat
      let m3 : command_t := { m2 with command := { m2.command with argLength := len } }
      let m4 : command_t :=
        { m3 with command := { m3.command with argData := strncpy m3.command.argData raw 4 len } }
      ({ m4 with
          commandValid := true
          commandState := READY_FOR_COMMAND
          rawCommandReceived := true },
        decode_exit.decoded)

/-- The C function `receiveRawCommand`: the new value of `m_command`. -/
def receiveRawCommand (m_command : command_t) (raw : Nat → Nat) (rawLength : Nat) : command_t :=
  (receiveRawCommandExit m_command raw rawLength).1

/-- The C function `validCommandReceived`. -/
def validCommandReceived (m_command : command_t) : Bool :=
  m_command.rawCommandReceived == true && m_command.commandValid == true

/-- The C function `currentCommand`. -/
def currentCommand (m_command : command_t) : Nat :=
  m_command.command.commandID

/-- The C function `setCurrentCommand`. -/
def setCurrentCommand (m_command : command_t) (commandID : Nat) : command_t :=
  { m_command with command := { m_command.command with commandID := commandID } }

/-! ## ble_cmd.c: handing one notification to the transport -/

/-! The error codes and the invalid connection handle are constants of the
nRF5 SDK headers `nrf_error.h` and `ble_types.h`, with the values given there. -/

def NRF_SUCCESS : Nat := 0
def NRF_ERROR_NOT_FOUND : Nat := 5
def NRF_ERROR_INVALID_PARAM : Nat := 7
def NRF_ERROR_INVALID_STATE : Nat := 8
def BLE_CONN_HANDLE_INVALID : Nat := 0xFFFF

/-- The struct `ble_cmd_client_context_t`, the per-link context. -/
structure ble_cmd_client_context_t where
  is_notification_enabled : Bool
deriving DecidableEq

/-- One recorded step of the response transmitter. -/
inductive action where
  /-- Entry into `bleEventInitiate(message)`. -/
  | initiate (message : List Nat)
  /-- A call `sd_ble_gatts_hvx(conn_handle, ..)`: a notification carrying `data`. -/
  | hvx (conn_handle : Nat) (data : List Nat)
  /-- Return of `ble_cmd_data_send(p_data, p_length)` with code `err`; `data`
  is the `*p_length` bytes at `p_data`. -/
  | data_send (data : List Nat) (err : Nat)
  /-- A call `nrf_delay_ms(ms)`. -/
  | delay_ms (ms : Nat)
deriving DecidableEq

/-- What `ble_cmd_data_send` reads from outside `command.c`. -/
structure ble_env where
  /-- Return code of `blcm_link_ctx_get` and the link context it stores in
  `p_client` (`none` is `NULL`). -/
  blcm_link_ctx_get : Nat × Option ble_cmd_client_context_t
  /-- The value `*m_connectionHandle`. -/
  m_connectionHandle : Nat
  /-- The constant `BLE_CMD_MAX_DATA_LEN` of `ble_cmd.h`. -/
  BLE_CMD_MAX_DATA_LEN : Nat
  /-- Return code of `sd_ble_gatts_hvx`, given the actions recorded so far, the
  connection handle and the payload. -/
  sd_ble_gatts_hvx : List action → Nat → List Nat → Nat

/-- The C function `ble_cmd_data_send`: the return code and the extended
record of actions.  `p_data` is the memory at the pointer, `p_length` the
value `*p_length`.  The test `*m_connectionHandle == BLE_CONN_HANDLE_INVALID
|| p_client == NULL` is split into its two disjuncts, both returning
`NRF_ERROR_NOT_FOUND`. -/
def ble_cmd_data_send (env : ble_env) (log : List action) (p_data : List Nat) (p_length : Nat) :
    Nat × List action :=
  let data := p_data.take p_length
  let err_code := env.blcm_link_ctx_get.1
  if err_code ≠ NRF_SUCCESS then (err_code, log ++ [action.data_send data err_code])
  else if err_code ≠ 0 then (err_code, log ++ [action.data_send data err_code])
  else
    match env.blcm_link_ctx_get.2 with
    | none => (NRF_ERROR_NOT_FOUND, log ++ [action.data_send data NRF_ERROR_NOT_FOUND])
    | some p_client =>
      if env.m_connectionHandle = BLE_CONN_HANDLE_INVALID then
        (NRF_ERROR_NOT_FOUND, log ++ [action.data_send data NRF_ERROR_NOT_FOUND])
      else if !p_client.is_notification_enabled then
        (NRF_ERROR_INVALID_STATE, log ++ [action.data_send data NRF_ERROR_INVALID_STATE])
      else if p_length > env.BLE_CMD_MAX_DATA_LEN then
        (NRF_ERROR_INVALID_PARAM, log ++ [action.data_send data NRF_ERROR_INVALID_PARAM])
      else
        let log1 := log ++ [action.hvx env.m_connectionHandle data]
        let err := env.sd_ble_gatts_hvx log env.m_connectionHandle data
        (err, log1 ++ [action.data_send data err])

/-! ## command.c: the response transmitter -/

def BLE_MTU : Nat := 20

/-- The characters of a string literal. -/
def cstr (s : String) : List Nat :=
  s.toList.map Char.toNat

/-- The conversion `%04d` of `sprintf` for a non-negative argument: decimal,
zero-padded on the left to at least four digits. -/
def fmt04d (d : Nat) : List Nat :=
  let digits := (Nat.toDigits 10 d).map Char.toNat
  List.replicate (4 - digits.length) 0x30 ++ digits

/-- The string `sprintf(dataAvailable, "dataAvailable:%04d", msgLength)` writes. -/
def sprintf_dataAvailable (msgLength : Nat) : List Nat :=
  cstr "dataAvailable:" ++ fmt04d msgLength

/-- The `while (bytesToSend > 0)` loop of `bleEventInitiate`. -/
def fragmentLoop (env : ble_env) (bytesToSend : Nat) (msgPtr : List Nat) (log : List action) :
    List action :=
  if h : bytesToSend > 0 then
    if h20 : bytesToSend ≥ BLE_MTU then
      let len := BLE_MTU
      let sent := ble_cmd_data_send env log msgPtr len
      fragmentLoop env (bytesToSend - BLE_MTU) (msgPtr.drop BLE_MTU)
        (sent.2 ++ [action.delay_ms 10])
    else
      let len := bytesToSend
      let sent := ble_cmd_data_send env log msgPtr len
      fragmentLoop env 0 msgPtr (sent.2 ++ [action.delay_ms 10])
  else log
termination_by bytesToSend
decreasing_by
  all_goals simp_wf
  · simp only [BLE_MTU] at *
    omega
  · omega

/-- The C function `bleEventInitiate`: the extended record of actions. -/
def bleEventInitiate (env : ble_env) (log : List action) (message : List Nat) : List action :=
  let log0 := log ++ [action.initiate message]
  let msgLength := message.length % 65536
  let dataAvailable := sprintf_dataAvailable msgLength
  let dataAvailableLength := dataAvailable.length % 65536
  let sent := ble_cmd_data_send env log0 dataAvailable dataAvailableLength
  fragmentLoop env msgLength message sent.2

/-! ## command.c: the command handlers and the dispatcher -/

/-- The C function `noCommand`. -/
def noCommand (m_command : command_t) (env : ble_env) (log : List action) : Int × List action :=
  if m_command.command.argLength ≠ 0 then (COMMAND_FAILURE, log)
  else (COMMAND_SUCCESS, bleEventInitiate env log (cstr "No Command received"))

/-- The C function `fastBlink`. -/
def fastBlink (m_command : command_t) (env : ble_env) (log : List action) : Int × List action :=
  if m_command.command.argLength ≠ 0 then (COMMAND_FAILURE, log)
  else (COMMAND_SUCCESS, bleEventInitiate env log (cstr "LED blinking quickly"))

/-- The C function `slowBlink`. -/
def slowBlink (m_command : command_t) (env : ble_env) (log : List action) : Int × List action :=
  if m_command.command.argLength ≠ 0 then (COMMAND_FAILURE, log)
  else (COMMAND_SUCCESS, bleEventInitiate env log (cstr "LED blinking slowly"))

/-- The C function `altBlink`. -/
def altBlink (m_command : command_t) (env : ble_env) (log : List action) : Int × List action :=
  if m_command.command.argLength ≠ 0 then (COMMAND_FAILURE, log)
  else (COMMAND_SUCCESS, bleEventInitiate env log (cstr "Alternating LEDs"))

/-- The C function `off`. -/
def off (m_command : command_t) (env : ble_env) (log : List action) : Int × List action :=
  if m_command.command.argLength ≠ 0 then (COMMAND_FAILURE, log)
  else (COMMAND_SUCCESS, bleEventInitiate env log (cstr "LEDs are off"))

/-- The C function `abortCommand`. -/
def abortCommand (m_command : command_t) (env : ble_env) (log : List action) :
    Int × List action :=
  if m_command.command.argLength ≠ 0 then (COMMAND_FAILURE, log)
  else (COMMAND_SUCCESS, bleEventInitiate env log (cstr "Aborting (just pretending...)"))

/-- The C function `executeCommand`: the new value of `m_command` and the
extended record of actions, together with the value returned by the handler
the `switch` called (`none` in the `default` case).  The source discards that
value. -/
def executeCommandStatus (m_command : command_t) (env : ble_env) (log : List action) :
    (command_t × List action) × Option Int :=
  let m1 : command_t := { m_command with rawCommandReceived := false }
  let called : Option (Int × List action) :=
    if m1.command.commandID = NO_COMMAND then some (noCommand m1 env log)
    else if m1.command.commandID = FAST_BLINK then some (fastBlink m1 env log)
    else if m1.command.commandID = SLOW_BLINK then some (slowBlink m1 env log)
    else if m1.command.commandID = ALT_BLINK then some (altBlink m1 env log)
    else if m1.command.commandID = OFF then some (off m1 env log)
    else if m1.command.commandID = ABORT then some (abortCommand m1 env log)
    else none
  let log1 : List action :=
    match called with
    | some returned => returned.2
    | none => log
  (({ m1 with commandState := READY_FOR_COMMAND, commandValid := false }, log1),
    called.map fun returned => returned.1)

/-- The C function `executeCommand`: the new value of `m_command` and the
extended record of actions. -/
def executeCommand (m_command : command_t) (env : ble_env) (log : List action) :
    command_t × List action :=
  (executeCommandStatus m_command env log).1

/-! ## main.c: the entry point for inbound writes -/

/-- The enum `ble_cmd_evt_type_t` of the service events. -/
inductive ble_cmd_evt_type_t where
  | BLE_CMD_EVT_RX_DATA
  | BLE_CMD_EVT_TX_RDY
  | BLE_CMD_EVT_COMM_STARTED
  | BLE_CMD_EVT_COMM_STOPPED
deriving DecidableEq

/-- The C function `cmd_data_handler` of `main.c`; `p_data` and `length` are
the fields `params.rx_data.p_data` and `params.rx_data.length` of the event. -/
def cmd_data_handler (type : ble_cmd_evt_type_t) (p_data : Nat → Nat) (length : Nat)
    (m_command : command_t) (env : ble_env) (log : List action) : command_t × List action :=
  if type = ble_cmd_evt_type_t.BLE_CMD_EVT_RX_DATA then
    let m1 := receiveRawCommand m_command p_data length
    if validCommandReceived m1 then executeCommand m1 env log
    else (m1, log)
  else (m_command, log)

/-! ## main.c: the negotiated payload limit -/

/-- Modelled from the spec: the payload limit "starts at 20 bytes
pre-negotiation", which `main.c` writes `BLE_GATT_ATT_MTU_DEFAULT - 3`; the
constant itself is declared outside `src/`. -/
def BLE_GATT_ATT_MTU_DEFAULT : Nat := 23

/-- Modelled from the spec: the payload limit is the MTU "after protocol
overhead", 3 bytes in all as the initial value `BLE_GATT_ATT_MTU_DEFAULT - 3`
shows: one byte of opcode, declared outside `src/`. -/
def OPCODE_LENGTH : Nat := 1

/-- Modelled from the spec: the two bytes of attribute handle that make up the
rest of the 3 bytes of protocol overhead, declared outside `src/`. -/
def HANDLE_LENGTH : Nat := 2

/-- The initial value of the static `m_ble_cmd_max_data_len` of `main.c`. -/
def m_ble_cmd_max_data_len_init : Nat := BLE_GATT_ATT_MTU_DEFAULT - 3

/-- The enum `nrf_ble_gatt_evt_id_t` of the GATT module events. -/
inductive nrf_ble_gatt_evt_id_t where
  | NRF_BLE_GATT_EVT_ATT_MTU_UPDATED
  | NRF_BLE_GATT_EVT_DATA_LENGTH_UPDATED
deriving DecidableEq

/-- The fields of `nrf_ble_gatt_evt_t` that `gatt_evt_handler` reads. -/
structure nrf_ble_gatt_evt_t where
  evt_id : nrf_ble_gatt_evt_id_t
  conn_handle : Nat
  att_mtu_effective : Nat

/-- The C function `gatt_evt_handler` of `main.c`: the new value of the static
`m_ble_cmd_max_data_len` (a `uint16_t`), the only variable it writes. -/
def gatt_evt_handler (m_conn_handle m_ble_cmd_max_data_len : Nat) (p_evt : nrf_ble_gatt_evt_t) :
    Nat :=
  if m_conn_handle = p_evt.conn_handle ∧
      p_evt.evt_id = nrf_ble_gatt_evt_id_t.NRF_BLE_GATT_EVT_ATT_MTU_UPDATED then
    (p_evt.att_mtu_effective + 65536 - OPCODE_LENGTH - HANDLE_LENGTH) % 65536
  else m_ble_cmd_max_data_len

/-! ## commandInternal.h: the values of the state enum -/

/-- The integer value of each `command_state_t` enumerator. -/
def command_state_value : command_state_t → Nat
  | READY_FOR_COMMAND => 0x00
  | DECODING_COMMAND => 0x01
  | PROCESSING_COMMAND => 0x02
  | ACCEPT_ARG_DATA => 0x03
  | command_state_t.INVALID => 0xFF

/-! ## command.c: the memory accesses of the decoder -/

/-- The indices at which one call of `receiveRawCommand` reads `raw`, writes
`m_command.command.argData` and writes the local `argString`. -/
structure memory_accesses where
  rawReads : List Nat
  argDataWrites : List Nat
  argStringWrites : List Nat
deriving DecidableEq

/-- The indices of the source that `strncpy(dest, src + i, n)` reads: one
character after the other, up to and including the first NUL, `n` at most. -/
def strncpyReads (src : Nat → Nat) (i : Nat) : Nat → List Nat
  | 0 => []
  | n + 1 =>
    if src i = 0 then [i]
    else i :: strncpyReads src (i + 1) n

/-- The C function `receiveRawCommand`, followed statement by statement for
the array indices it touches.  `raw[0]` is read for the id; the `&&` chain
reads `raw[1]`, `raw[2]`, `raw[3]` as far as it gets; the copy into `hex` reads
them again; each `strncpy` reads `raw` from index 4 and writes `len` bytes of
its destination; `argString[len] = 0` writes index `len`. -/
def receiveRawCommandAccesses (m_command : command_t) (raw : Nat → Nat) (rawLength : Nat) :
    memory_accesses :=
  if m_command.commandState ≠ READY_FOR_COMMAND then
    { rawReads := [], argDataWrites := [], argStringWrites := [] }
  else
    let m1 : command_t :=
      { m_command with commandState := DECODING_COMMAND, commandValid := false }
    let m2 : command_t := { m1 with command := { m1.command with commandID := raw 0 } }
    if !isValidCommandID m2 then
      { rawReads := [0], argDataWrites := [], argStringWrites := [] }
    else if !isASCIIHexDigit (raw 1) then
      { rawReads := [0, 1], argDataWrites := [], argStringWrites := [] }
    else if !isASCIIHexDigit (raw 2) then
      { rawReads := [0, 1, 2], argDataWrites := [], argStringWrites := [] }
    else if !isASCIIHexDigit (raw 3) then
      { rawReads := [0, 1, 2, 3], argDataWrites := [], argStringWrites := [] }
    else
      let hex : List Nat := [raw 1, raw 2, raw 3, 0]
      let len : Nat := (strtol16 hex % 65536).toNat
      { rawReads := [0, 1, 2, 3] ++ [1, 2, 3] ++ strncpyReads raw 4 len ++ strncpyReads raw 4 len
        argDataWrites := List.range len
        argStringWrites := List.range len ++ [len] }

/-! ## ble_cmd.c: writes to the service's attributes -/

/-- The C function `ble_srv_is_notification_enabled` of the nRF5 SDK header
`ble_srv_common.h`: bit 0 (`BLE_GATT_HVX_NOTIFICATION`) of the little-endian
16-bit value encoded in the first two bytes. -/
def ble_srv_is_notification_enabled (p_encoded_data : List Nat) : Bool :=
  let cccd_value := (p_encoded_data.getD 0 0 + 256 * p_encoded_data.getD 1 0) % 65536
  cccd_value &&& 0x01 != 0

/-- The fields of the service structure `ble_cmd_t` that `on_write` reads;
`data_handler` tells whether the handler pointer is non-NULL. -/
structure ble_cmd_t where
  tx_cccd_handle : Nat
  rx_value_handle : Nat
  data_handler : Bool

/-- The fields of `ble_gatts_evt_write_t` that `on_write` reads. -/
structure ble_gatts_evt_write_t where
  handle : Nat
  len : Nat
  data : List Nat

/-- The fields of the event `ble_cmd_evt_t` that `on_write` fills in before
it calls the data handler. -/
structure ble_cmd_evt_t where
  type : ble_cmd_evt_type_t
  p_link_ctx : Option ble_cmd_client_context_t
  rx_data : List Nat
  rx_length : Nat
deriving DecidableEq

/-- The C function `on_write`: the link context after the call (`none` is a
NULL `p_client`) and the events passed to `p_cmd->data_handler`, in order.
`link_ctx` is the return code of `blcm_link_ctx_get` with the context it
stores in `p_client`. -/
def on_write (p_cmd : ble_cmd_t) (link_ctx : Nat × Option ble_cmd_client_context_t)
    (p_evt_write : ble_gatts_evt_write_t) :
    Option ble_cmd_client_context_t × List ble_cmd_evt_t :=
  if p_evt_write.handle = p_cmd.tx_cccd_handle ∧ p_evt_write.len = 2 then
    match link_ctx.2 with
    | some p_client =>
      let updated : ble_cmd_client_context_t × ble_cmd_evt_type_t :=
        if ble_srv_is_notification_enabled p_evt_write.data then
          ({ p_client with is_notification_enabled := true },
            ble_cmd_evt_type_t.BLE_CMD_EVT_COMM_STARTED)
        else
          ({ p_client with is_notification_enabled := false },
            ble_cmd_evt_type_t.BLE_CMD_EVT_COMM_STOPPED)
      let evt : ble_cmd_evt_t :=
        { type := updated.2, p_link_ctx := some updated.1, rx_data := [], rx_length := 0 }
      if p_cmd.data_handler then (some updated.1, [evt])
      else (some updated.1, [])
    | none => (none, [])
  else if p_evt_write.handle = p_cmd.rx_value_handle ∧ p_cmd.data_handler = true then
    (link_ctx.2,
      [{ type := ble_cmd_evt_type_t.BLE_CMD_EVT_RX_DATA, p_link_ctx := link_ctx.2,
         rx_data := p_evt_write.data, rx_length := p_evt_write.len }])
  else (link_ctx.2, [])

/-! ## Vocabulary of the specification -/

/-- The six legal command ids of the command table. -/
def legalCommandIDs : List Nat := [0xFE, 0x01, 0x02, 0x03, 0x04, 0xFF]

/-- The 22 ASCII hex digits: `0`-`9`, `A`-`F`, `a`-`f`. -/
def asciiHexDigits : List Nat :=
  [0x30, 0x31, 0x32, 0x33, 0x34, 0x35, 0x36, 0x37, 0x38, 0x39,
   0x41, 0x42, 0x43, 0x44, 0x45, 0x46,
   0x61, 0x62, 0x63, 0x64, 0x65, 0x66]

/-- The value `v(d)` of an ASCII hex digit `d`, either case. -/
def hexDigitValue (d : Nat) : Nat :=
  if d ≤ 0x39 then d - 0x30
  else if d ≤ 0x46 then d - 0x41 + 10
  else d - 0x61 + 10

/-- The ASCII hex digit of a value below 16, in upper or lower case. -/
def hexDigitChar (lower : Bool) (v : Nat) : Nat :=
  if v < 10 then 0x30 + v
  else if lower then 0x61 + (v - 10)
  else 0x41 + (v - 10)

/-- The wire encoding of a command: the id byte, the argument length as three
hex digits, most significant first, then the argument bytes. -/
def encodeFrame (lower : Bool) (id n : Nat) (args : List Nat) : List Nat :=
  id :: hexDigitChar lower (n / 256 % 16) :: hexDigitChar lower (n / 16 % 16) ::
    hexDigitChar lower (n % 16) :: args

/-- Memory holding the bytes `bytes`, followed by the memory `beyond`. -/
def bufferAt (bytes : List Nat) (beyond : Nat → Nat) : Nat → Nat :=
  fun i => if i < bytes.length then bytes.getD i 0 else beyond (i - bytes.length)

/-- The zero-initialised global `m_command` after `commandInit`. -/
def initialCommand : command_t :=
  commandInit
    { initialized := false
      rawCommandReceived := false
      commandValid := false
      command := { commandID := 0, argLength := 0,
                   argData := List.replicate COMMAND_ARG_DATA_FIELD_MAX_LENGTH 0 }
      commandState := READY_FOR_COMMAND }

/-- The payloads of the notifications handed to the transport, in order. -/
def notifications (log : List action) : List (List Nat) :=
  log.filterMap fun a =>
    match a with
    | action.hvx _ data => some data
    | _ => none

/-- The messages `bleEventInitiate` was called with, in order. -/
def initiated (log : List action) : List (List Nat) :=
  log.filterMap fun a =>
    match a with
    | action.initiate message => some message
    | _ => none

/-- The value of `m_command` when `receiveRawCommand` rejects a frame. -/
def rejected (m : command_t) (raw : Nat → Nat) : command_t :=
  { initialized := m.initialized
    rawCommandReceived := false
    commandValid := false
    command := { m.command with commandID := raw 0 }
    commandState := READY_FOR_COMMAND }

/-- Memory holding the 4-byte frame `0xAA "000"`, followed by zero bytes. -/
def frameIllegalId : Nat → Nat := bufferAt [0xAA, 0x30, 0x30, 0x30] fun _ => 0

/-- Memory holding the 4-byte frame `0x01 "0G0"`, followed by zero bytes. -/
def frameMalformedLength : Nat → Nat := bufferAt [0x01, 0x30, 0x47, 0x30] fun _ => 0

/-- Memory holding the 4-byte frame `0x02 "fA9"`, followed by zero bytes. -/
def frameMixedCase : Nat → Nat := bufferAt [0x02, 0x66, 0x41, 0x39] fun _ => 0

/-- Memory holding the 7-byte frame `0x01 "003" 'A' 0x00 'B'`, followed by zero bytes. -/
def frameNulArgument : Nat → Nat := bufferAt [0x01, 0x30, 0x30, 0x33, 0x41, 0x00, 0x42] fun _ => 0

/-- Memory holding the 4-byte frame `0x01 "003"`, followed by the bytes `xyz`
that are not part of the frame. -/
def frameTruncated : Nat → Nat :=
  bufferAt [0x01, 0x30, 0x30, 0x33] (bufferAt [0x78, 0x79, 0x7A] fun _ => 0)

/-- Memory holding the 7-byte frame `0x01 "003" "xyz"`, followed by zero bytes. -/
def frameWithArgument : Nat → Nat :=
  bufferAt [0x01, 0x30, 0x30, 0x33, 0x78, 0x79, 0x7A] fun _ => 0

/-- The fixed status text of each command id, as the command table gives it. -/
def statusText (id : Nat) : List Nat :=
  if id = 0xFE then cstr "No Command received"
  else if id = 0x01 then cstr "LED blinking quickly"
  else if id = 0x02 then cstr "LED blinking slowly"
  else if id = 0x03 then cstr "Alternating LEDs"
  else if id = 0x04 then cstr "LEDs are off"
  else cstr "Aborting (just pretending...)"

/-- Memory holding the 4-byte frame `0x01 "000"`, followed by zero bytes. -/
def frameFastBlink : Nat → Nat := bufferAt [0x01, 0x30, 0x30, 0x30] fun _ => 0

/-- A link on which notifications are enabled: the link context is found,
the connection handle is 0, the payload limit is 20 bytes and the transport
accepts every notification. -/
def readyLink : ble_env :=
  { blcm_link_ctx_get := (NRF_SUCCESS, some { is_notification_enabled := true })
    m_connectionHandle := 0
    BLE_CMD_MAX_DATA_LEN := 20
    sd_ble_gatts_hvx := fun _ _ _ => NRF_SUCCESS }

/-- The data passed to `ble_cmd_data_send`, call by call, in order. -/
def sendAttempts (log : List action) : List (List Nat) :=
  log.filterMap fun a =>
    match a with
    | action.data_send data _ => some data
    | _ => none

/-- The return codes of the calls of `ble_cmd_data_send`, in order. -/
def sendResults (log : List action) : List Nat :=
  log.filterMap fun a =>
    match a with
    | action.data_send _ err => some err
    | _ => none

/-- The `i`-th piece of a message cut into consecutive pieces of `M` bytes. -/
def fragmentAt (M : Nat) (msg : List Nat) (i : Nat) : List Nat :=
  (msg.drop (M * i)).take M

/-- A message cut into `ceil(L / M)` consecutive pieces of at most `M` bytes. -/
def fragmentsOf (M : Nat) (msg : List Nat) : List (List Nat) :=
  (List.range ((msg.length + M - 1) / M)).map (fragmentAt M msg)

/-- The body fragments of one call `bleEventInitiate(message)`: the data of
its calls of `ble_cmd_data_send` after the first, which carries the preamble. -/
def bodyFragments (env : ble_env) (log : List action) (message : List Nat) : List (List Nat) :=
  (sendAttempts (bleEventInitiate env log message)).drop ((sendAttempts log).length + 1)

/-- One pass of the fragment loop for the fragment `data`: the send, then the
delay. -/
def sendStep (env : ble_env) (log : List action) (data : List Nat) : List action :=
  (ble_cmd_data_send env log data data.length).2 ++ [action.delay_ms 10]

/-- A valid link on which notifications are not enabled. -/
def disabledLink : ble_env :=
  { blcm_link_ctx_get := (NRF_SUCCESS, some { is_notification_enabled := false })
    m_connectionHandle := 0
    BLE_CMD_MAX_DATA_LEN := 20
    sd_ble_gatts_hvx := fun _ _ _ => NRF_SUCCESS }

/-- A link with notifications enabled whose payload limit is 244 bytes. -/
def wideLink : ble_env :=
  { blcm_link_ctx_get := (NRF_SUCCESS, some { is_notification_enabled := true })
    m_connectionHandle := 0
    BLE_CMD_MAX_DATA_LEN := 244
    sd_ble_gatts_hvx := fun _ _ _ => NRF_SUCCESS }

/-- A message of 50 bytes. -/
def message50 : List Nat := List.replicate 50 0x41

/-- The MTU update event that negotiates an ATT MTU of 103 on connection 0. -/
def mtuUpdate103 : nrf_ble_gatt_evt_t :=
  { evt_id := nrf_ble_gatt_evt_id_t.NRF_BLE_GATT_EVT_ATT_MTU_UPDATED
    conn_handle := 0
    att_mtu_effective := 103 }

/-- Memory holding the 4-byte frame `0x02 "0G0"`, followed by zero bytes. -/
def frameSlowMalformed : Nat → Nat := bufferAt [0x02, 0x30, 0x47, 0x30] fun _ => 0

/-- The zero-initialised global `m_command`, before `commandInit` is called. -/
def zeroCommand : command_t :=
  { initialized := false
    rawCommandReceived := false
    commandValid := false
    command := { commandID := 0, argLength := 0,
                 argData := List.replicate COMMAND_ARG_DATA_FIELD_MAX_LENGTH 0 }
    commandState := READY_FOR_COMMAND }

/-- A call of one of the public operations of `command.h`, with its
arguments. -/
inductive operation where
  | commandInit
  | receiveRawCommand (raw : Nat → Nat) (rawLength : Nat)
  | validCommandReceived
  | executeCommand (env : ble_env) (log : List action)
  | currentCommand
  | setCurrentCommand (commandID : Nat)

/-- The value of `m_command` when the operation returns. -/
def applyOperation (m : command_t) : operation → command_t
  | operation.commandInit => commandInit m
  | operation.receiveRawCommand raw rawLength => receiveRawCommand m raw rawLength
  | operation.validCommandReceived => m
  | operation.executeCommand env log => (executeCommand m env log).1
  | operation.currentCommand => m
  | operation.setCurrentCommand commandID => setCurrentCommand m commandID

/-- The value of `m_command` after a sequence of operations. -/
def runOperations (m : command_t) (ops : List operation) : command_t :=
  ops.foldl applyOperation m

/-- The number written by a string of ASCII decimal digits. -/
def decimalValue (digits : List Nat) : Nat :=
  digits.foldl (fun acc c => 10 * acc + (c - 0x30)) 0

/-- The enable bit of a value written to a notification descriptor: bit 0 of
its first byte. -/
def enableBit (data : List Nat) : Bool :=
  data.getD 0 0 % 2 == 1

/-- A command state in which a frame is being decoded. -/
def decodingCommand : command_t :=
  { initialCommand with commandState := DECODING_COMMAND }

/-- The service structure with the descriptor of the response characteristic at
handle 0x12, the command characteristic at handle 0x10, and a data handler. -/
def serviceHandles : ble_cmd_t :=
  { tx_cccd_handle := 0x12, rx_value_handle := 0x10, data_handler := true }

/-- The 2-byte write `01 00` to the notification descriptor. -/
def writeEnable : ble_gatts_evt_write_t :=
  { handle := 0x12, len := 2, data := [0x01, 0x00] }

/-- The bytes of the 3-byte write `0x02 "00"`. -/
def frameShortBytes : List Nat := [0x02, 0x30, 0x30]

/-- Memory holding the 3-byte write `0x02 "00"`, followed by bytes `'0'` left
there by earlier writes. -/
def frameShort : Nat → Nat := bufferAt frameShortBytes fun _ => 0x30

/-! ## Lemmas on the decoder -/

theorem isValidCommandID_iff (m : command_t) :
    isValidCommandID m = true ↔ m.command.commandID ∈ legalCommandIDs := by
  simp [isValidCommandID, legalCommandIDs, NO_COMMAND, FAST_BLINK, SLOW_BLINK, ALT_BLINK,
    OFF, ABORT, or_assoc]

theorem isASCIIHexDigit_iff (c : Nat) :
    isASCIIHexDigit c = true ↔ c ∈ asciiHexDigits := by
  simp only [isASCIIHexDigit, asciiHexDigits, Bool.or_eq_true, Bool.and_eq_true,
    decide_eq_true_eq, List.mem_cons, List.mem_singleton, List.not_mem_nil, or_false]
  omega

theorem hexDigit_facts (c : Nat) (h : isASCIIHexDigit c = true) :
    c ≠ 0 ∧ isspace c = false ∧ c ≠ 0x2D ∧ c ≠ 0x2B ∧ c ≠ 0x78 ∧ c ≠ 0x58 ∧
      strtolDigit16 c = some (hexDigitValue c) ∧ hexDigitValue c < 16 := by
  simp only [isASCIIHexDigit, Bool.or_eq_true, Bool.and_eq_true, decide_eq_true_eq] at h
  have hsp : isspace c = false := by
    simp only [isspace, Bool.or_eq_false_iff, Bool.and_eq_false_iff, beq_eq_false_iff_ne,
      decide_eq_false_iff_not]
    omega
  have hv : strtolDigit16 c = some (hexDigitValue c) := by
    unfold strtolDigit16 hexDigitValue
    split_ifs <;> first | rfl | (exfalso; omega)
  have hlt : hexDigitValue c < 16 := by
    unfold hexDigitValue
    split_ifs <;> omega
  refine ⟨?_, hsp, ?_, ?_, ?_, ?_, hv, hlt⟩ <;> omega

/-- On three hex digits `strtol` returns their big-endian value. -/
theorem strtol16_hex3 (a b c : Nat) (ha : isASCIIHexDigit a = true)
    (hb : isASCIIHexDigit b = true) (hc : isASCIIHexDigit c = true) :
    strtol16 [a, b, c, 0] =
      ((256 * hexDigitValue a + 16 * hexDigitValue b + hexDigitValue c : Nat) : Int) := by
  obtain ⟨a0, asp, am, ap, -, -, av, alt⟩ := hexDigit_facts a ha
  obtain ⟨b0, -, -, -, bx, bX, bv, blt⟩ := hexDigit_facts b hb
  obtain ⟨c0, -, -, -, -, -, cv, clt⟩ := hexDigit_facts c hc
  have hs : cString [a, b, c, 0] = [a, b, c] := by
    simp [cString, List.takeWhile_cons, a0, b0, c0]
  have hd : List.dropWhile isspace [a, b, c] = [a, b, c] := by
    simp [List.dropWhile, asp]
  have hdig : strtolDigits16 0 [a, b, c] =
      256 * hexDigitValue a + 16 * hexDigitValue b + hexDigitValue c := by
    simp only [strtolDigits16, av, bv, cv]
    ring
  unfold strtol16
  simp only [hs, hd]
  simp [am, ap, bx, bX, hdig, LONG_MAX]
  omega

theorem receive_invalidCommandID (m : command_t) (raw : Nat → Nat) (rawLength : Nat)
    (hready : m.commandState = READY_FOR_COMMAND) (hid : raw 0 ∉ legalCommandIDs) :
    receiveRawCommandExit m raw rawLength = (rejected m raw, decode_exit.invalidCommandID) := by
  have hv : isValidCommandID
      { initialized := m.initialized, rawCommandReceived := m.rawCommandReceived,
        commandValid := false, command := { m.command with commandID := raw 0 },
        commandState := DECODING_COMMAND } = false := by
    rw [← Bool.not_eq_true, isValidCommandID_iff]
    exact hid
  simp [receiveRawCommandExit, hready, hv, rejected]

theorem receive_malformedLength (m : command_t) (raw : Nat → Nat) (rawLength : Nat)
    (hready : m.commandState = READY_FOR_COMMAND) (hid : raw 0 ∈ legalCommandIDs)
    (hhex : (isASCIIHexDigit (raw 1) && isASCIIHexDigit (raw 2) && isASCIIHexDigit (raw 3))
      = false) :
    receiveRawCommandExit m raw rawLength = (rejected m raw, decode_exit.malformedLength) := by
  have hv : isValidCommandID
      { initialized := m.initialized, rawCommandReceived := m.rawCommandReceived,
        commandValid := false, command := { m.command with commandID := raw 0 },
        commandState := DECODING_COMMAND } = true := by
    rw [isValidCommandID_iff]
    exact hid
  simp [receiveRawCommandExit, hready, hv, hhex, rejected]

theorem receive_decoded (m : command_t) (raw : Nat → Nat) (rawLength : Nat)
    (hready : m.commandState = READY_FOR_COMMAND) (hid : raw 0 ∈ legalCommandIDs)
    (h1 : isASCIIHexDigit (raw 1) = true) (h2 : isASCIIHexDigit (raw 2) = true)
    (h3 : isASCIIHexDigit (raw 3) = true) :
    receiveRawCommandExit m raw rawLength =
      ({ initialized := m.initialized
         rawCommandReceived := true
         commandValid := true
         command :=
           { commandID := raw 0
             argLength :=
               256 * hexDigitValue (raw 1) + 16 * hexDigitValue (raw 2) + hexDigitValue (raw 3)
             argData := strncpy m.command.argData raw 4
               (256 * hexDigitValue (raw 1) + 16 * hexDigitValue (raw 2) +
                 hexDigitValue (raw 3)) }
         commandState := READY_FOR_COMMAND }, decode_exit.decoded) := by
  have hv : isValidCommandID
      { initialized := m.initialized, rawCommandReceived := m.rawCommandReceived,
        commandValid := false, command := { m.command with commandID := raw 0 },
        commandState := DECODING_COMMAND } = true := by
    rw [isValidCommandID_iff]
    exact hid
  obtain ⟨-, -, -, -, -, -, -, l1⟩ := hexDigit_facts _ h1
  obtain ⟨-, -, -, -, -, -, -, l2⟩ := hexDigit_facts _ h2
  obtain ⟨-, -, -, -, -, -, -, l3⟩ := hexDigit_facts _ h3
  have hlen : (strtol16 [raw 1, raw 2, raw 3, 0] % 65536).toNat =
      256 * hexDigitValue (raw 1) + 16 * hexDigitValue (raw 2) + hexDigitValue (raw 3) := by
    rw [strtol16_hex3 _ _ _ h1 h2 h3]
    omega
  simp [receiveRawCommandExit, hready, hv, h1, h2, h3, hlen]

/-- The hex digit written for a value below 16 is accepted and reads back as
that value. -/
theorem hexDigitChar_spec (lower : Bool) (v : Nat) (h : v < 16) :
    isASCIIHexDigit (hexDigitChar lower v) = true ∧ hexDigitValue (hexDigitChar lower v) = v := by
  unfold hexDigitChar hexDigitValue isASCIIHexDigit
  simp only [Bool.or_eq_true, Bool.and_eq_true, decide_eq_true_eq]
  cases lower <;> simp only [Bool.false_eq_true, if_false, if_true] <;>
    split_ifs <;> omega

theorem strncpyBytes_length (src : Nat → Nat) (i n : Nat) :
    (strncpyBytes src i n).length = n := by
  induction n generalizing i with
  | zero => rfl
  | succ n ih =>
    unfold strncpyBytes
    split_ifs
    · simp
    · simp [ih]

theorem strncpyBytes_getElem? (src : Nat → Nat) (i n k : Nat) (hk : k < n) :
    (strncpyBytes src i n)[k]? = some (if ∃ j, j ≤ k ∧ src (i + j) = 0 then 0 else src (i + k)) := by
  induction n generalizing i k with
  | zero => omega
  | succ n ih =>
    unfold strncpyBytes
    by_cases h0 : src i = 0
    · have hex : ∃ j, j ≤ k ∧ src (i + j) = 0 := ⟨0, Nat.zero_le _, by simpa using h0⟩
      simp [h0, hex, List.getElem?_replicate, hk]
    · rw [if_neg h0]
      cases k with
      | zero =>
        have hne : ¬ ∃ j, j ≤ 0 ∧ src (i + j) = 0 := by
          rintro ⟨j, hj, hz⟩
          have : j = 0 := by omega
          subst this
          exact h0 (by simpa using hz)
        simp [h0]
      | succ k =>
        have hiff : (∃ j, j ≤ k + 1 ∧ src (i + j) = 0) ↔ ∃ j, j ≤ k ∧ src (i + 1 + j) = 0 := by
          constructor
          · rintro ⟨j, hj, hz⟩
            cases j with
            | zero => exact absurd (by simpa using hz) h0
            | succ j => exact ⟨j, by omega, by rw [← hz]; congr 1; omega⟩
          · rintro ⟨j, hj, hz⟩
            exact ⟨j + 1, by omega, by rw [← hz]; congr 1; omega⟩
        have hadd : i + 1 + k = i + (k + 1) := by omega
        rw [List.getElem?_cons_succ, ih (i + 1) k (by omega)]
        simp only [hiff, hadd]

theorem strncpyBytes_of_nonzero (src : Nat → Nat) (i n : Nat)
    (h : ∀ k, k < n → src (i + k) ≠ 0) :
    strncpyBytes src i n = (List.range n).map fun k => src (i + k) := by
  apply List.ext_getElem?
  intro k
  by_cases hk : k < n
  · have hne : ¬ ∃ j, j ≤ k ∧ src (i + j) = 0 := by
      rintro ⟨j, hj, hz⟩
      exact h j (by omega) hz
    rw [strncpyBytes_getElem? src i n k hk, if_neg hne]
    simp [List.getElem?_map, List.getElem?_range hk]
  · rw [List.getElem?_eq_none (by rw [strncpyBytes_length]; omega),
      List.getElem?_eq_none (by simp; omega)]

theorem decoded_of_valid (m : command_t) (raw : Nat → Nat) (rawLength : Nat)
    (hready : m.commandState = READY_FOR_COMMAND)
    (hvalid : validCommandReceived (receiveRawCommand m raw rawLength) = true) :
    raw 0 ∈ legalCommandIDs ∧ isASCIIHexDigit (raw 1) = true ∧ isASCIIHexDigit (raw 2) = true ∧
      isASCIIHexDigit (raw 3) = true := by
  by_cases hid : raw 0 ∈ legalCommandIDs
  · by_cases hhex : (isASCIIHexDigit (raw 1) && isASCIIHexDigit (raw 2) &&
        isASCIIHexDigit (raw 3)) = true
    · simp only [Bool.and_eq_true] at hhex
      exact ⟨hid, hhex.1.1, hhex.1.2, hhex.2⟩
    · rw [Bool.not_eq_true] at hhex
      simp [receiveRawCommand, receive_malformedLength m raw rawLength hready hid hhex,
        rejected, validCommandReceived] at hvalid
  · simp [receiveRawCommand, receive_invalidCommandID m raw rawLength hready hid,
      rejected, validCommandReceived] at hvalid

/-! ## Lemmas on the dispatcher and the transmitter -/

theorem ble_cmd_data_send_ready (env : ble_env) (log : List action) (p_data : List Nat)
    (p_length : Nat)
    (hlink : env.blcm_link_ctx_get = (NRF_SUCCESS, some { is_notification_enabled := true }))
    (hconn : env.m_connectionHandle ≠ BLE_CONN_HANDLE_INVALID)
    (hlen : p_length ≤ env.BLE_CMD_MAX_DATA_LEN) :
    (ble_cmd_data_send env log p_data p_length).2 =
      log ++ [action.hvx env.m_connectionHandle (p_data.take p_length),
        action.data_send (p_data.take p_length)
          (env.sd_ble_gatts_hvx log env.m_connectionHandle (p_data.take p_length))] := by
  simp [ble_cmd_data_send, hlink, hconn, Nat.not_lt.mpr hlen, NRF_SUCCESS]

theorem fragmentLoop_zero (env : ble_env) (msgPtr : List Nat) (log : List action) :
    fragmentLoop env 0 msgPtr log = log := by
  rw [fragmentLoop]
  simp

theorem executeCommandStatus_of_argLength_ne_zero (m : command_t) (env : ble_env)
    (log : List action) (hid : m.command.commandID ∈ legalCommandIDs)
    (harg : m.command.argLength ≠ 0) :
    executeCommandStatus m env log =
      (({ m with rawCommandReceived := false, commandState := READY_FOR_COMMAND,
                 commandValid := false }, log), some COMMAND_FAILURE) := by
  simp only [legalCommandIDs, List.mem_cons, List.mem_singleton, List.not_mem_nil,
    or_false] at hid
  rcases hid with h | h | h | h | h | h <;>
    simp [executeCommandStatus, h, harg, noCommand, fastBlink, slowBlink, altBlink, off,
      abortCommand, NO_COMMAND, FAST_BLINK, SLOW_BLINK, ALT_BLINK, OFF, ABORT]

theorem executeCommandStatus_of_argLength_zero (m : command_t) (env : ble_env)
    (log : List action) (hid : m.command.commandID ∈ legalCommandIDs)
    (harg : m.command.argLength = 0) :
    executeCommandStatus m env log =
      (({ m with rawCommandReceived := false, commandState := READY_FOR_COMMAND,
                 commandValid := false },
        bleEventInitiate env log (statusText m.command.commandID)), some COMMAND_SUCCESS) := by
  simp only [legalCommandIDs, List.mem_cons, List.mem_singleton, List.not_mem_nil,
    or_false] at hid
  rcases hid with h | h | h | h | h | h <;>
    simp [executeCommandStatus, h, harg, noCommand, fastBlink, slowBlink, altBlink, off,
      abortCommand, NO_COMMAND, FAST_BLINK, SLOW_BLINK, ALT_BLINK, OFF, ABORT, statusText]

theorem initiated_append (l₁ l₂ : List action) :
    initiated (l₁ ++ l₂) = initiated l₁ ++ initiated l₂ := by
  simp [initiated, List.filterMap_append]

theorem initiated_ble_cmd_data_send (env : ble_env) (log : List action) (p_data : List Nat)
    (p_length : Nat) :
    initiated (ble_cmd_data_send env log p_data p_length).2 = initiated log := by
  unfold ble_cmd_data_send
  rcases env.blcm_link_ctx_get with ⟨err, pc⟩
  cases pc <;> simp only [] <;> split_ifs <;> simp [initiated, List.filterMap_append]

theorem initiated_fragmentLoop (env : ble_env) (bytesToSend : Nat) (msgPtr : List Nat)
    (log : List action) :
    initiated (fragmentLoop env bytesToSend msgPtr log) = initiated log := by
  induction bytesToSend using Nat.strong_induction_on generalizing msgPtr log with
  | _ n ih =>
    rw [fragmentLoop]
    by_cases h : n > 0
    · by_cases h20 : n ≥ BLE_MTU
      · have hlt : n - BLE_MTU < n := by
          simp only [BLE_MTU] at h20 ⊢
          omega
        simp only [h, h20, dite_true]
        rw [ih _ hlt, initiated_append, initiated_ble_cmd_data_send]
        simp [initiated]
      · simp only [h, h20, dite_true, dite_false]
        rw [ih 0 h, initiated_append, initiated_ble_cmd_data_send]
        simp [initiated]
    · simp [h]

theorem initiated_bleEventInitiate (env : ble_env) (log : List action) (message : List Nat) :
    initiated (bleEventInitiate env log message) = initiated log ++ [message] := by
  unfold bleEventInitiate
  simp only
  rw [initiated_fragmentLoop, initiated_ble_cmd_data_send, initiated_append]
  simp [initiated]

theorem notifications_append (l₁ l₂ : List action) :
    notifications (l₁ ++ l₂) = notifications l₁ ++ notifications l₂ := by
  simp [notifications, List.filterMap_append]

theorem receive_frameFastBlink (m : command_t) (rawLength : Nat)
    (hready : m.commandState = READY_FOR_COMMAND) :
    receiveRawCommand m frameFastBlink rawLength =
      { initialized := m.initialized
        rawCommandReceived := true
        commandValid := true
        command :=
          { commandID := FAST_BLINK
            argLength := 0
            argData := strncpy m.command.argData frameFastBlink 4 0 }
        commandState := READY_FOR_COMMAND } := by
  have h0 : frameFastBlink 0 = FAST_BLINK := by decide
  have hl : 256 * hexDigitValue (frameFastBlink 1) + 16 * hexDigitValue (frameFastBlink 2) +
      hexDigitValue (frameFastBlink 3) = 0 := by decide
  rw [receiveRawCommand, receive_decoded m frameFastBlink rawLength hready (by decide)
    (by decide) (by decide) (by decide), h0, hl]

theorem bleEventInitiate_fastBlink_ready (env : ble_env) (log : List action)
    (hlink : env.blcm_link_ctx_get = (NRF_SUCCESS, some { is_notification_enabled := true }))
    (hconn : env.m_connectionHandle ≠ BLE_CONN_HANDLE_INVALID)
    (hmax : 20 ≤ env.BLE_CMD_MAX_DATA_LEN) :
    notifications (bleEventInitiate env log (cstr "LED blinking quickly")) =
      notifications log ++ [cstr "dataAvailable:0020", cstr "LED blinking quickly"] := by
  have hm : (cstr "LED blinking quickly").length % 65536 = 20 := by decide
  have hp : sprintf_dataAvailable 20 = cstr "dataAvailable:0020" := by decide
  have hpl : (cstr "dataAvailable:0020").length % 65536 = 18 := by decide
  have ht18 : (cstr "dataAvailable:0020").take 18 = cstr "dataAvailable:0020" := by decide
  have ht20 : (cstr "LED blinking quickly").take BLE_MTU = cstr "LED blinking quickly" := by
    decide
  have h20 : BLE_MTU ≤ env.BLE_CMD_MAX_DATA_LEN := hmax
  have hpos : (20 : Nat) > 0 := by norm_num
  have hge : (20 : Nat) ≥ BLE_MTU := by decide
  have hsub : 20 - BLE_MTU = 0 := by decide
  unfold bleEventInitiate
  simp only [hm, hp, hpl]
  rw [ble_cmd_data_send_ready env _ _ 18 hlink hconn (by omega), fragmentLoop]
  simp only [hpos, hge, dite_true, hsub, fragmentLoop_zero]
  rw [ble_cmd_data_send_ready env _ _ BLE_MTU hlink hconn h20, ht18, ht20]
  simp [notifications, List.filterMap_append]

theorem cmd_data_handler_fastBlink_ready (m : command_t) (env : ble_env) (log : List action)
    (hready : m.commandState = READY_FOR_COMMAND)
    (hlink : env.blcm_link_ctx_get = (NRF_SUCCESS, some { is_notification_enabled := true }))
    (hconn : env.m_connectionHandle ≠ BLE_CONN_HANDLE_INVALID)
    (hmax : 20 ≤ env.BLE_CMD_MAX_DATA_LEN) :
    notifications
        (cmd_data_handler ble_cmd_evt_type_t.BLE_CMD_EVT_RX_DATA frameFastBlink 4 m env log).2 =
      notifications log ++ [cstr "dataAvailable:0020", cstr "LED blinking quickly"] := by
  have hs : statusText FAST_BLINK = cstr "LED blinking quickly" := by decide
  simp only [cmd_data_handler, receive_frameFastBlink m 4 hready, validCommandReceived,
    executeCommand]
  have hmem : FAST_BLINK ∈ legalCommandIDs := by decide
  rw [executeCommandStatus_of_argLength_zero _ env log hmem rfl]
  simp only [hs, beq_self_eq_true, Bool.and_self, if_true]
  exact bleEventInitiate_fastBlink_ready env log hlink hconn hmax

/-! ## Lemmas on fragments -/

theorem fragmentsOf_nil : fragmentsOf BLE_MTU [] = [] := by
  decide

theorem fragmentsOf_cons (msg : List Nat) (h : msg ≠ []) :
    fragmentsOf BLE_MTU msg = msg.take BLE_MTU :: fragmentsOf BLE_MTU (msg.drop BLE_MTU) := by
  have hpos : 0 < msg.length := List.length_pos.mpr h
  have hcount : (msg.length + BLE_MTU - 1) / BLE_MTU =
      ((msg.drop BLE_MTU).length + BLE_MTU - 1) / BLE_MTU + 1 := by
    simp only [List.length_drop, BLE_MTU]
    omega
  have hat : ∀ i, fragmentAt BLE_MTU msg (i + 1) = fragmentAt BLE_MTU (msg.drop BLE_MTU) i := by
    intro i
    simp only [fragmentAt, List.drop_drop]
    congr 2
    ring
  unfold fragmentsOf
  rw [hcount, List.range_succ_eq_map, List.map_cons, List.map_map]
  have hzero : fragmentAt BLE_MTU msg 0 = msg.take BLE_MTU := by
    simp [fragmentAt]
  rw [hzero]
  congr 1
  apply List.map_congr_left
  intro i _
  exact hat i

theorem fragmentsOf_flatten (msg : List Nat) : (fragmentsOf BLE_MTU msg).flatten = msg := by
  generalize hn : msg.length = n
  induction n using Nat.strong_induction_on generalizing msg with
  | _ n ih =>
    by_cases hnil : msg = []
    · subst hnil
      rfl
    · have hpos : 0 < msg.length := List.length_pos.mpr hnil
      rw [fragmentsOf_cons msg hnil, List.flatten_cons,
        ih (msg.drop BLE_MTU).length (by simp only [List.length_drop, BLE_MTU]; omega) _ rfl]
      exact List.take_append_drop _ _

theorem fragmentsOf_length (msg : List Nat) :
    (fragmentsOf BLE_MTU msg).length = (msg.length + 19) / 20 := by
  simp [fragmentsOf, BLE_MTU]

theorem fragmentsOf_getElem? (msg : List Nat) (i : Nat) (hi : i < (msg.length + 19) / 20) :
    (fragmentsOf BLE_MTU msg)[i]? = some (fragmentAt BLE_MTU msg i) := by
  simp [fragmentsOf, BLE_MTU, List.getElem?_map, List.getElem?_range hi]

theorem fragmentAt_length (msg : List Nat) (i : Nat) :
    (fragmentAt BLE_MTU msg i).length = min (msg.length - 20 * i) 20 := by
  simp only [fragmentAt, List.length_take, List.length_drop, BLE_MTU]
  omega

theorem fragmentsOf_mem_length (msg f : List Nat) (hf : f ∈ fragmentsOf BLE_MTU msg) :
    0 < f.length ∧ f.length ≤ BLE_MTU := by
  simp only [fragmentsOf, List.mem_map, List.mem_range] at hf
  obtain ⟨i, hi, rfl⟩ := hf
  rw [fragmentAt_length]
  simp only [BLE_MTU] at hi ⊢
  omega

/-! ## Lemmas on the fragment loop -/

theorem ble_cmd_data_send_take (env : ble_env) (log : List action) (p_data : List Nat)
    (p_length : Nat) (h : p_length ≤ p_data.length) :
    ble_cmd_data_send env log p_data p_length =
      ble_cmd_data_send env log (p_data.take p_length) (p_data.take p_length).length := by
  have hl : (p_data.take p_length).length = p_length := by
    rw [List.length_take]
    omega
  unfold ble_cmd_data_send
  rw [hl, List.take_take, Nat.min_self]

theorem fragmentLoop_eq_foldl (env : ble_env) (bytesToSend : Nat) (msgPtr : List Nat)
    (log : List action) (h : bytesToSend ≤ msgPtr.length) :
    fragmentLoop env bytesToSend msgPtr log =
      (fragmentsOf BLE_MTU (msgPtr.take bytesToSend)).foldl (sendStep env) log := by
  induction bytesToSend using Nat.strong_induction_on generalizing msgPtr log with
  | _ n ih =>
    rw [fragmentLoop]
    by_cases hpos : n > 0
    · have hne : msgPtr.take n ≠ [] := by
        intro hnil
        have := congrArg List.length hnil
        rw [List.length_take, List.length_nil] at this
        omega
      rw [fragmentsOf_cons _ hne, List.foldl_cons]
      by_cases h20 : n ≥ BLE_MTU
      · have hlt : n - BLE_MTU < n := by
          simp only [BLE_MTU] at h20 ⊢
          omega
        have htake : (msgPtr.take n).take BLE_MTU = msgPtr.take BLE_MTU := by
          rw [List.take_take, Nat.min_eq_left h20]
        have hdrop : (msgPtr.take n).drop BLE_MTU = (msgPtr.drop BLE_MTU).take (n - BLE_MTU) := by
          rw [List.drop_take]
        have hle : BLE_MTU ≤ msgPtr.length := le_trans h20 h
        simp only [hpos, h20, dite_true]
        rw [ih _ hlt _ _ (by rw [List.length_drop]; omega), htake, hdrop, sendStep,
          ← ble_cmd_data_send_take env log msgPtr BLE_MTU hle]
      · have htake : (msgPtr.take n).take BLE_MTU = msgPtr.take n := by
          rw [List.take_take, Nat.min_eq_right (by omega)]
        have hdrop : (msgPtr.take n).drop BLE_MTU = [] := by
          apply List.drop_eq_nil_of_le
          rw [List.length_take]
          omega
        simp only [hpos, h20, dite_true, dite_false]
        rw [fragmentLoop_zero, htake, hdrop, fragmentsOf_nil, List.foldl_nil, sendStep,
          ← ble_cmd_data_send_take env log msgPtr n h]
    · have hz : n = 0 := by omega
      subst hz
      simp [fragmentsOf_nil]

theorem sprintf_dataAvailable_length (msgLength : Nat) (h : msgLength < 65536) :
    (sprintf_dataAvailable msgLength).length ≤ 19 := by
  have hd : (Nat.toDigits 10 msgLength).length ≤ 5 :=
    Nat.toDigitsCore_length 10 (by norm_num) _ _ 5 (by omega) (by norm_num)
  have hc : (cstr "dataAvailable:").length = 14 := by decide
  simp only [sprintf_dataAvailable, fmt04d, List.length_append, List.length_replicate,
    List.length_map, hc]
  omega

theorem bleEventInitiate_eq_foldl (env : ble_env) (log : List action) (message : List Nat) :
    bleEventInitiate env log message =
      (fragmentsOf BLE_MTU (message.take (message.length % 65536))).foldl (sendStep env)
        (ble_cmd_data_send env (log ++ [action.initiate message])
          (sprintf_dataAvailable (message.length % 65536))
          (sprintf_dataAvailable (message.length % 65536)).length).2 := by
  have hlen := sprintf_dataAvailable_length (message.length % 65536)
    (Nat.mod_lt _ (by norm_num))
  have hmod : (sprintf_dataAvailable (message.length % 65536)).length % 65536 =
      (sprintf_dataAvailable (message.length % 65536)).length := Nat.mod_eq_of_lt (by omega)
  unfold bleEventInitiate
  simp only [hmod]
  exact fragmentLoop_eq_foldl env _ message _ (Nat.mod_le _ _)

theorem sendAttempts_append (l₁ l₂ : List action) :
    sendAttempts (l₁ ++ l₂) = sendAttempts l₁ ++ sendAttempts l₂ := by
  simp [sendAttempts, List.filterMap_append]

theorem sendResults_append (l₁ l₂ : List action) :
    sendResults (l₁ ++ l₂) = sendResults l₁ ++ sendResults l₂ := by
  simp [sendResults, List.filterMap_append]

theorem sendAttempts_ble_cmd_data_send (env : ble_env) (log : List action) (p_data : List Nat)
    (p_length : Nat) :
    sendAttempts (ble_cmd_data_send env log p_data p_length).2 =
      sendAttempts log ++ [p_data.take p_length] := by
  unfold ble_cmd_data_send
  rcases env.blcm_link_ctx_get with ⟨err, pc⟩
  cases pc <;> simp only [] <;> split_ifs <;> simp [sendAttempts, List.filterMap_append]

theorem sendResults_ble_cmd_data_send (env : ble_env) (log : List action) (p_data : List Nat)
    (p_length : Nat) :
    sendResults (ble_cmd_data_send env log p_data p_length).2 =
      sendResults log ++ [(ble_cmd_data_send env log p_data p_length).1] := by
  unfold ble_cmd_data_send
  rcases env.blcm_link_ctx_get with ⟨err, pc⟩
  cases pc <;> simp only [] <;> split_ifs <;> simp [sendResults, List.filterMap_append]

theorem ble_cmd_data_send_disabled (env : ble_env) (log : List action) (p_data : List Nat)
    (p_length : Nat)
    (hlink : env.blcm_link_ctx_get = (NRF_SUCCESS, some { is_notification_enabled := false }))
    (hconn : env.m_connectionHandle ≠ BLE_CONN_HANDLE_INVALID) :
    ble_cmd_data_send env log p_data p_length =
      (NRF_ERROR_INVALID_STATE,
        log ++ [action.data_send (p_data.take p_length) NRF_ERROR_INVALID_STATE]) := by
  simp [ble_cmd_data_send, hlink, hconn, NRF_SUCCESS]

theorem sendAttempts_foldl_sendStep (env : ble_env) (frags : List (List Nat))
    (log : List action) :
    sendAttempts (frags.foldl (sendStep env) log) = sendAttempts log ++ frags := by
  induction frags generalizing log with
  | nil => simp
  | cons f fs ih =>
    rw [List.foldl_cons, ih, sendStep, sendAttempts_append, sendAttempts_ble_cmd_data_send,
      List.take_length]
    simp [sendAttempts]

theorem sendResults_foldl_sendStep_length (env : ble_env) (frags : List (List Nat))
    (log : List action) :
    (sendResults (frags.foldl (sendStep env) log)).length =
      (sendResults log).length + frags.length := by
  induction frags generalizing log with
  | nil => simp
  | cons f fs ih =>
    rw [List.foldl_cons, ih, sendStep, sendResults_append, sendResults_ble_cmd_data_send]
    simp [sendResults]
    omega

theorem notifications_foldl_sendStep_ready (env : ble_env) (frags : List (List Nat))
    (log : List action)
    (hlink : env.blcm_link_ctx_get = (NRF_SUCCESS, some { is_notification_enabled := true }))
    (hconn : env.m_connectionHandle ≠ BLE_CONN_HANDLE_INVALID)
    (hlen : ∀ f ∈ frags, f.length ≤ env.BLE_CMD_MAX_DATA_LEN) :
    notifications (frags.foldl (sendStep env) log) = notifications log ++ frags := by
  induction frags generalizing log with
  | nil => simp
  | cons f fs ih =>
    rw [List.foldl_cons, ih _ (fun g hg => hlen g (List.mem_cons_of_mem _ hg)), sendStep,
      ble_cmd_data_send_ready env log f f.length hlink hconn (hlen f (List.mem_cons_self _ _)),
      List.take_length]
    simp [notifications, List.filterMap_append]

theorem notifications_foldl_sendStep_disabled (env : ble_env) (frags : List (List Nat))
    (log : List action)
    (hlink : env.blcm_link_ctx_get = (NRF_SUCCESS, some { is_notification_enabled := false }))
    (hconn : env.m_connectionHandle ≠ BLE_CONN_HANDLE_INVALID) :
    notifications (frags.foldl (sendStep env) log) = notifications log ∧
      sendResults (frags.foldl (sendStep env) log) =
        sendResults log ++ List.replicate frags.length NRF_ERROR_INVALID_STATE := by
  induction frags generalizing log with
  | nil => simp
  | cons f fs ih =>
    rw [List.foldl_cons, sendStep, ble_cmd_data_send_disabled env log f f.length hlink hconn]
    obtain ⟨h1, h2⟩ := ih (log ++ [action.data_send (List.take f.length f)
      NRF_ERROR_INVALID_STATE] ++ [action.delay_ms 10])
    rw [h1, h2]
    constructor
    · simp [notifications, List.filterMap_append]
    · simp [sendResults, List.filterMap_append, List.replicate_succ]

theorem sendAttempts_bleEventInitiate (env : ble_env) (log : List action) (message : List Nat) :
    sendAttempts (bleEventInitiate env log message) =
      sendAttempts log ++ sprintf_dataAvailable (message.length % 65536) ::
        fragmentsOf BLE_MTU (message.take (message.length % 65536)) := by
  rw [bleEventInitiate_eq_foldl, sendAttempts_foldl_sendStep, sendAttempts_ble_cmd_data_send,
    sendAttempts_append, List.take_length]
  simp [sendAttempts]

theorem bodyFragments_eq (env : ble_env) (log : List action) (message : List Nat) :
    bodyFragments env log message =
      fragmentsOf BLE_MTU (message.take (message.length % 65536)) := by
  rw [bodyFragments, sendAttempts_bleEventInitiate]
  simp

theorem notifications_bleEventInitiate_ready (env : ble_env) (log : List action)
    (message : List Nat)
    (hlink : env.blcm_link_ctx_get = (NRF_SUCCESS, some { is_notification_enabled := true }))
    (hconn : env.m_connectionHandle ≠ BLE_CONN_HANDLE_INVALID)
    (hmax : 20 ≤ env.BLE_CMD_MAX_DATA_LEN) :
    notifications (bleEventInitiate env log message) =
      notifications log ++ sprintf_dataAvailable (message.length % 65536) ::
        fragmentsOf BLE_MTU (message.take (message.length % 65536)) := by
  have hpre := sprintf_dataAvailable_length (message.length % 65536)
    (Nat.mod_lt _ (by norm_num))
  rw [bleEventInitiate_eq_foldl,
    notifications_foldl_sendStep_ready env _ _ hlink hconn
      (fun f hf => le_trans (fragmentsOf_mem_length _ f hf).2 hmax),
    ble_cmd_data_send_ready env _ _ _ hlink hconn (by omega), List.take_length]
  simp [notifications, List.filterMap_append]

theorem bleEventInitiate_disabled (env : ble_env) (log : List action) (message : List Nat)
    (hlink : env.blcm_link_ctx_get = (NRF_SUCCESS, some { is_notification_enabled := false }))
    (hconn : env.m_connectionHandle ≠ BLE_CONN_HANDLE_INVALID) :
    notifications (bleEventInitiate env log message) = notifications log ∧
      sendResults (bleEventInitiate env log message) =
        sendResults log ++
          List.replicate (1 + (message.length % 65536 + 19) / 20) NRF_ERROR_INVALID_STATE := by
  have hcount : (fragmentsOf BLE_MTU (message.take (message.length % 65536))).length =
      (message.length % 65536 + 19) / 20 := by
    rw [fragmentsOf_length, List.length_take, Nat.min_eq_left (Nat.mod_le _ _)]
  obtain ⟨h1, h2⟩ := notifications_foldl_sendStep_disabled env
    (fragmentsOf BLE_MTU (message.take (message.length % 65536)))
    (ble_cmd_data_send env (log ++ [action.initiate message])
      (sprintf_dataAvailable (message.length % 65536))
      (sprintf_dataAvailable (message.length % 65536)).length).2 hlink hconn
  rw [bleEventInitiate_eq_foldl, h1, h2, hcount, ble_cmd_data_send_disabled env _ _ _ hlink hconn]
  constructor
  · simp [notifications, List.filterMap_append]
  · simp [sendResults, List.filterMap_append, List.replicate_add]

theorem digitChar_toNat (k : Nat) (hk : k < 10) : (Nat.digitChar k).toNat = 48 + k := by
  interval_cases k <;> rfl

theorem toDigitsCore_step (fuel n : Nat) (ds : List Char) (hf : 0 < fuel) :
    Nat.toDigitsCore 10 fuel n ds =
      if n / 10 = 0 then Nat.digitChar (n % 10) :: ds
      else Nat.toDigitsCore 10 (fuel - 1) (n / 10) (Nat.digitChar (n % 10) :: ds) := by
  cases fuel with
  | zero => omega
  | succ f => simp [Nat.toDigitsCore]

/-- The conversion `%04d` of a number below 10000 is its four decimal digits. -/
theorem fmt04d_eq (d : Nat) (h : d ≤ 9999) :
    fmt04d d = [48 + d / 1000, 48 + d / 100 % 10, 48 + d / 10 % 10, 48 + d % 10] := by
  have c0 := digitChar_toNat (d % 10) (Nat.mod_lt _ (by norm_num))
  have c1 := digitChar_toNat (d / 10 % 10) (Nat.mod_lt _ (by norm_num))
  have c2 := digitChar_toNat (d / 10 / 10 % 10) (Nat.mod_lt _ (by norm_num))
  have c3 := digitChar_toNat (d / 10 / 10 / 10 % 10) (Nat.mod_lt _ (by norm_num))
  unfold fmt04d Nat.toDigits
  by_cases h1 : d / 10 = 0
  · rw [toDigitsCore_step _ _ _ (by omega), if_pos h1]
    simp only [List.map_cons, List.map_nil, c0, List.length_singleton]
    have e1 : d / 1000 = 0 := by omega
    have e2 : d / 100 % 10 = 0 := by omega
    have e3 : d / 10 % 10 = 0 := by omega
    simp [e1, e2, e3, List.replicate]
  · by_cases h2 : d / 10 / 10 = 0
    · rw [toDigitsCore_step _ _ _ (by omega), if_neg h1, toDigitsCore_step _ _ _ (by omega),
        if_pos h2]
      simp only [List.map_cons, List.map_nil, c0, c1, List.length_cons, List.length_nil]
      have e1 : d / 1000 = 0 := by omega
      have e2 : d / 100 % 10 = 0 := by omega
      simp [e1, e2, List.replicate]
    · by_cases h3 : d / 10 / 10 / 10 = 0
      · rw [toDigitsCore_step _ _ _ (by omega), if_neg h1, toDigitsCore_step _ _ _ (by omega),
          if_neg h2, toDigitsCore_step _ _ _ (by omega), if_pos h3]
        simp only [List.map_cons, List.map_nil, c0, c1, c2, List.length_cons, List.length_nil]
        have e1 : d / 1000 = 0 := by omega
        have e2 : d / 10 / 10 % 10 = d / 100 % 10 := by omega
        simp [e1, e2, List.replicate]
      · have h4 : d / 10 / 10 / 10 / 10 = 0 := by omega
        rw [toDigitsCore_step _ _ _ (by omega), if_neg h1, toDigitsCore_step _ _ _ (by omega),
          if_neg h2, toDigitsCore_step _ _ _ (by omega), if_neg h3,
          toDigitsCore_step _ _ _ (by omega), if_pos h4]
        simp only [List.map_cons, List.map_nil, c0, c1, c2, c3, List.length_cons,
          List.length_nil]
        have e1 : d / 10 / 10 / 10 % 10 = d / 1000 := by omega
        have e2 : d / 10 / 10 % 10 = d / 100 % 10 := by omega
        simp [e1, e2, List.replicate]

theorem statusText_length (id : Nat) : (statusText id).length ≤ 29 := by
  unfold statusText
  split_ifs <;> decide

theorem cmd_data_handler_rejected (m : command_t) (raw : Nat → Nat) (rawLength : Nat)
    (env : ble_env) (log : List action) (hready : m.commandState = READY_FOR_COMMAND)
    (hrej : raw 0 ∉ legalCommandIDs ∨ raw 1 ∉ asciiHexDigits ∨ raw 2 ∉ asciiHexDigits ∨
      raw 3 ∉ asciiHexDigits) :
    cmd_data_handler ble_cmd_evt_type_t.BLE_CMD_EVT_RX_DATA raw rawLength m env log =
      (rejected m raw, log) := by
  have hrec : receiveRawCommand m raw rawLength = rejected m raw := by
    by_cases hid : raw 0 ∈ legalCommandIDs
    · have hfalse : (isASCIIHexDigit (raw 1) && isASCIIHexDigit (raw 2) &&
          isASCIIHexDigit (raw 3)) = false := by
        rw [← Bool.not_eq_true]
        simp only [Bool.and_eq_true, isASCIIHexDigit_iff]
        tauto
      rw [receiveRawCommand, receive_malformedLength m raw rawLength hready hid hfalse]
    · rw [receiveRawCommand, receive_invalidCommandID m raw rawLength hready hid]
  simp [cmd_data_handler, hrec, rejected, validCommandReceived]

theorem cmd_data_handler_decoded (m : command_t) (raw : Nat → Nat) (rawLength : Nat)
    (env : ble_env) (log : List action) (hready : m.commandState = READY_FOR_COMMAND)
    (hid : raw 0 ∈ legalCommandIDs) (h1 : raw 1 ∈ asciiHexDigits) (h2 : raw 2 ∈ asciiHexDigits)
    (h3 : raw 3 ∈ asciiHexDigits) :
    cmd_data_handler ble_cmd_evt_type_t.BLE_CMD_EVT_RX_DATA raw rawLength m env log =
      executeCommand (receiveRawCommand m raw rawLength) env log ∧
    (receiveRawCommand m raw rawLength).command.commandID = raw 0 ∧
    (receiveRawCommand m raw rawLength).command.argLength =
      256 * hexDigitValue (raw 1) + 16 * hexDigitValue (raw 2) + hexDigitValue (raw 3) := by
  rw [← isASCIIHexDigit_iff] at h1 h2 h3
  simp [cmd_data_handler, receiveRawCommand,
    receive_decoded m raw rawLength hready hid h1 h2 h3, validCommandReceived]

theorem sendResults_bleEventInitiate_length (env : ble_env) (log : List action)
    (message : List Nat) :
    (sendResults (bleEventInitiate env log message)).length =
      (sendResults log).length + 1 + (message.length % 65536 + 19) / 20 := by
  have hcount : (fragmentsOf BLE_MTU (message.take (message.length % 65536))).length =
      (message.length % 65536 + 19) / 20 := by
    rw [fragmentsOf_length, List.length_take, Nat.min_eq_left (Nat.mod_le _ _)]
  rw [bleEventInitiate_eq_foldl, sendResults_foldl_sendStep_length, hcount,
    sendResults_ble_cmd_data_send, sendResults_append]
  simp [sendResults]

theorem executeCommand_state (m : command_t) (env : ble_env) (log : List action) :
    (executeCommand m env log).1 =
      { m with rawCommandReceived := false, commandState := READY_FOR_COMMAND,
               commandValid := false } := by
  simp [executeCommand, executeCommandStatus]

/-! ## Lemmas on the state of the decoder -/

theorem receiveRawCommand_commandState (m : command_t) (raw : Nat → Nat) (rawLength : Nat)
    (hready : m.commandState = READY_FOR_COMMAND) :
    (receiveRawCommand m raw rawLength).commandState = READY_FOR_COMMAND := by
  by_cases hid : raw 0 ∈ legalCommandIDs
  · by_cases hhex : (isASCIIHexDigit (raw 1) && isASCIIHexDigit (raw 2) &&
        isASCIIHexDigit (raw 3)) = true
    · simp only [Bool.and_eq_true] at hhex
      rw [receiveRawCommand,
        receive_decoded m raw rawLength hready hid hhex.1.1 hhex.1.2 hhex.2]
    · rw [Bool.not_eq_true] at hhex
      rw [receiveRawCommand, receive_malformedLength m raw rawLength hready hid hhex]
      rfl
  · rw [receiveRawCommand, receive_invalidCommandID m raw rawLength hready hid]
    rfl

theorem applyOperation_commandState (m : command_t) (op : operation)
    (hready : m.commandState = READY_FOR_COMMAND) :
    (applyOperation m op).commandState = READY_FOR_COMMAND := by
  cases op with
  | commandInit => rfl
  | receiveRawCommand raw rawLength => exact receiveRawCommand_commandState m raw rawLength hready
  | validCommandReceived => exact hready
  | executeCommand env log =>
    simp only [applyOperation]
    rw [executeCommand_state]
  | currentCommand => exact hready
  | setCurrentCommand commandID => exact hready

theorem runOperations_commandState (m : command_t) (ops : List operation)
    (hready : m.commandState = READY_FOR_COMMAND) :
    (runOperations m ops).commandState = READY_FOR_COMMAND := by
  induction ops generalizing m with
  | nil => exact hready
  | cons op ops ih =>
    exact ih (applyOperation m op) (applyOperation_commandState m op hready)

theorem strncpyReads_bound (src : Nat → Nat) (i n k : Nat) (hk : k ∈ strncpyReads src i n) :
    i ≤ k ∧ k < i + n := by
  induction n generalizing i with
  | zero => simp [strncpyReads] at hk
  | succ n ih =>
    unfold strncpyReads at hk
    split_ifs at hk
    · simp only [List.mem_singleton] at hk
      omega
    · rcases List.mem_cons.mp hk with h | h
      · omega
      · have := ih (i + 1) h
        omega

theorem ble_srv_is_notification_enabled_eq (data : List Nat) :
    ble_srv_is_notification_enabled data = enableBit data := by
  have h : (data.getD 0 0 + 256 * data.getD 1 0) % 65536 % 2 = data.getD 0 0 % 2 := by omega
  simp only [ble_srv_is_notification_enabled, enableBit, Nat.and_one_is_mod, h]
  rcases Nat.mod_two_eq_zero_or_one (data.getD 0 0) with h0 | h1
  · simp [h0]
  · simp [h1]

/-- The conversion `%04d` of a number from 10000 to 99999 is its five decimal
digits. -/
theorem fmt04d_eq_five (d : Nat) (hlo : 10000 ≤ d) (hhi : d ≤ 99999) :
    fmt04d d =
      [48 + d / 10000, 48 + d / 1000 % 10, 48 + d / 100 % 10, 48 + d / 10 % 10, 48 + d % 10] := by
  have c0 := digitChar_toNat (d % 10) (Nat.mod_lt _ (by norm_num))
  have c1 := digitChar_toNat (d / 10 % 10) (Nat.mod_lt _ (by norm_num))
  have c2 := digitChar_toNat (d / 10 / 10 % 10) (Nat.mod_lt _ (by norm_num))
  have c3 := digitChar_toNat (d / 10 / 10 / 10 % 10) (Nat.mod_lt _ (by norm_num))
  have c4 := digitChar_toNat (d / 10 / 10 / 10 / 10 % 10) (Nat.mod_lt _ (by norm_num))
  have h1 : ¬ d / 10 = 0 := by omega
  have h2 : ¬ d / 10 / 10 = 0 := by omega
  have h3 : ¬ d / 10 / 10 / 10 = 0 := by omega
  have h4 : ¬ d / 10 / 10 / 10 / 10 = 0 := by omega
  have h5 : d / 10 / 10 / 10 / 10 / 10 = 0 := by omega
  unfold fmt04d Nat.toDigits
  rw [toDigitsCore_step _ _ _ (by omega), if_neg h1, toDigitsCore_step _ _ _ (by omega),
    if_neg h2, toDigitsCore_step _ _ _ (by omega), if_neg h3,
    toDigitsCore_step _ _ _ (by omega), if_neg h4, toDigitsCore_step _ _ _ (by omega),
    if_pos h5]
  simp only [List.map_cons, List.map_nil, c0, c1, c2, c3, c4, List.length_cons,
    List.length_nil]
  have e1 : d / 10 / 10 / 10 / 10 % 10 = d / 10000 := by omega
  have e2 : d / 10 / 10 / 10 % 10 = d / 1000 % 10 := by omega
  have e3 : d / 10 / 10 % 10 = d / 100 % 10 := by omega
  simp [e1, e2, e3, List.replicate]

theorem decimalValue_fmt04d (d : Nat) (h : d ≤ 99999) : decimalValue (fmt04d d) = d := by
  by_cases h4 : d ≤ 9999
  · rw [fmt04d_eq d h4]
    simp only [decimalValue, List.foldl_cons, List.foldl_nil]
    omega
  · rw [fmt04d_eq_five d (by omega) h]
    simp only [decimalValue, List.foldl_cons, List.foldl_nil]
    omega

theorem sprintf_dataAvailable_drop (msgLength : Nat) :
    (sprintf_dataAvailable msgLength).drop 14 = fmt04d msgLength ∧
      (sprintf_dataAvailable msgLength).take 14 = cstr "dataAvailable:" := by
  have hc : (cstr "dataAvailable:").length = 14 := by decide
  exact ⟨List.drop_left' hc, List.take_left' hc⟩

/-- What `cmd_data_handler` emits in state `READY_FOR_COMMAND` on a ready link
is decided by the four bytes of memory at `raw`, whatever `rawLength` says:
one response when they hold a legal id and three hex digits of value 0, no
action otherwise.  The bytes need not all belong to the received frame. -/
theorem cmd_data_handler_response_by_memory (m : command_t) (raw : Nat → Nat) (rawLength : Nat)
    (env : ble_env) (log : List action) (hready : m.commandState = READY_FOR_COMMAND)
    (hlink : env.blcm_link_ctx_get = (NRF_SUCCESS, some { is_notification_enabled := true }))
    (hconn : env.m_connectionHandle ≠ BLE_CONN_HANDLE_INVALID)
    (hmax : 20 ≤ env.BLE_CMD_MAX_DATA_LEN) :
    (if raw 0 ∈ legalCommandIDs ∧ raw 1 ∈ asciiHexDigits ∧ raw 2 ∈ asciiHexDigits ∧
        raw 3 ∈ asciiHexDigits ∧
        256 * hexDigitValue (raw 1) + 16 * hexDigitValue (raw 2) + hexDigitValue (raw 3) = 0
      then
        initiated (cmd_data_handler ble_cmd_evt_type_t.BLE_CMD_EVT_RX_DATA raw rawLength
          m env log).2 = initiated log ++ [statusText (raw 0)] ∧
        notifications (cmd_data_handler ble_cmd_evt_type_t.BLE_CMD_EVT_RX_DATA raw rawLength
          m env log).2 =
          notifications log ++ sprintf_dataAvailable (statusText (raw 0)).length ::
            fragmentsOf BLE_MTU (statusText (raw 0)) ∧
        (fragmentsOf BLE_MTU (statusText (raw 0))).flatten = statusText (raw 0)
      else
        (cmd_data_handler ble_cmd_evt_type_t.BLE_CMD_EVT_RX_DATA raw rawLength m env log).2
          = log) ∧
    validCommandReceived (cmd_data_handler ble_cmd_evt_type_t.BLE_CMD_EVT_RX_DATA
      frameIllegalId 4 m env log).1 = false ∧
    (cmd_data_handler ble_cmd_evt_type_t.BLE_CMD_EVT_RX_DATA frameIllegalId 4 m env log).2
      = log := by
  refine ⟨?_, ?_, ?_⟩
  · split_ifs with hc
    · obtain ⟨hid, h1, h2, h3, hzero⟩ := hc
      obtain ⟨hexec, hcid, hlen⟩ := cmd_data_handler_decoded m raw rawLength env log hready hid
        h1 h2 h3
      have hmod : (statusText (raw 0)).length % 65536 = (statusText (raw 0)).length :=
        Nat.mod_eq_of_lt (lt_of_le_of_lt (statusText_length _) (by norm_num))
      rw [hexec, executeCommand,
        executeCommandStatus_of_argLength_zero _ env log (by rw [hcid]; exact hid)
          (by rw [hlen]; exact hzero), hcid]
      refine ⟨initiated_bleEventInitiate env log _, ?_, fragmentsOf_flatten _⟩
      rw [notifications_bleEventInitiate_ready env log _ hlink hconn hmax, hmod,
        List.take_length]
    · by_cases hdec : raw 0 ∈ legalCommandIDs ∧ raw 1 ∈ asciiHexDigits ∧
          raw 2 ∈ asciiHexDigits ∧ raw 3 ∈ asciiHexDigits
      · obtain ⟨hid, h1, h2, h3⟩ := hdec
        obtain ⟨hexec, hcid, hlen⟩ := cmd_data_handler_decoded m raw rawLength env log hready
          hid h1 h2 h3
        have hne : 256 * hexDigitValue (raw 1) + 16 * hexDigitValue (raw 2) +
            hexDigitValue (raw 3) ≠ 0 := fun hz => hc ⟨hid, h1, h2, h3, hz⟩
        rw [hexec, executeCommand,
          executeCommandStatus_of_argLength_ne_zero _ env log (by rw [hcid]; exact hid)
            (by rw [hlen]; exact hne)]
      · rw [cmd_data_handler_rejected m raw rawLength env log hready (by tauto)]
  · rw [cmd_data_handler_rejected m frameIllegalId 4 env log hready (Or.inl (by decide))]
    rfl
  · rw [cmd_data_handler_rejected m frameIllegalId 4 env log hready (Or.inl (by decide))]

/-! ## The claims -/

/-- C1: a frame whose first byte is not one of the six legal command ids,
received in state `READY_FOR_COMMAND`, is rejected through the invalid-id exit:
afterwards `validCommandReceived()` is false and `commandState` is
`READY_FOR_COMMAND`. -/
theorem C1_illegal_id_rejected (m : command_t) (raw : Nat → Nat) (rawLength : Nat)
    (hready : m.commandState = READY_FOR_COMMAND) (hid : raw 0 ∉ legalCommandIDs) :
    validCommandReceived (receiveRawCommand m raw rawLength) = false ∧
      (receiveRawCommand m raw rawLength).commandState = READY_FOR_COMMAND ∧
      (receiveRawCommandExit m raw rawLength).2 = decode_exit.invalidCommandID := by
  simp [receiveRawCommand, receive_invalidCommandID m raw rawLength hready hid, rejected,
    validCommandReceived]

theorem C1_illegal_id_rejected_witness :
    (initialCommand.commandState = READY_FOR_COMMAND ∧ frameIllegalId 0 ∉ legalCommandIDs) ∧
    validCommandReceived (receiveRawCommand initialCommand frameIllegalId 4) = false ∧
      (receiveRawCommand initialCommand frameIllegalId 4).commandState = READY_FOR_COMMAND ∧
      (receiveRawCommandExit initialCommand frameIllegalId 4).2 = decode_exit.invalidCommandID :=
  ⟨⟨rfl, by decide⟩, C1_illegal_id_rejected initialCommand frameIllegalId 4 rfl (by decide)⟩

/-- C2: a frame with a legal command id in which at least one of bytes 1..3 is
not an ASCII hex digit, received in state `READY_FOR_COMMAND`, is rejected
through the malformed-length exit: afterwards `validCommandReceived()` is
false and `commandState` is `READY_FOR_COMMAND`; and `isASCIIHexDigit` accepts
exactly the 22 values `0`-`9`, `A`-`F`, `a`-`f`, which are distinct bytes. -/
theorem C2_malformed_length_rejected (m : command_t) (raw : Nat → Nat) (rawLength : Nat)
    (hready : m.commandState = READY_FOR_COMMAND) (hid : raw 0 ∈ legalCommandIDs)
    (hhex : raw 1 ∉ asciiHexDigits ∨ raw 2 ∉ asciiHexDigits ∨ raw 3 ∉ asciiHexDigits) :
    (validCommandReceived (receiveRawCommand m raw rawLength) = false ∧
      (receiveRawCommand m raw rawLength).commandState = READY_FOR_COMMAND ∧
      (receiveRawCommandExit m raw rawLength).2 = decode_exit.malformedLength) ∧
    (∀ c : Nat, isASCIIHexDigit c = true ↔ c ∈ asciiHexDigits) ∧
    asciiHexDigits.length = 22 ∧ asciiHexDigits.Nodup ∧ (∀ c ∈ asciiHexDigits, c < 256) := by
  have hfalse : (isASCIIHexDigit (raw 1) && isASCIIHexDigit (raw 2) &&
      isASCIIHexDigit (raw 3)) = false := by
    rw [← Bool.not_eq_true]
    simp only [Bool.and_eq_true, isASCIIHexDigit_iff]
    tauto
  refine ⟨?_, isASCIIHexDigit_iff, by decide, by decide, by decide⟩
  simp [receiveRawCommand, receive_malformedLength m raw rawLength hready hid hfalse, rejected,
    validCommandReceived]

theorem C2_malformed_length_rejected_witness :
    (initialCommand.commandState = READY_FOR_COMMAND ∧
      frameMalformedLength 0 ∈ legalCommandIDs ∧
      (frameMalformedLength 1 ∉ asciiHexDigits ∨ frameMalformedLength 2 ∉ asciiHexDigits ∨
        frameMalformedLength 3 ∉ asciiHexDigits)) ∧
    (validCommandReceived (receiveRawCommand initialCommand frameMalformedLength 4) = false ∧
      (receiveRawCommand initialCommand frameMalformedLength 4).commandState
        = READY_FOR_COMMAND ∧
      (receiveRawCommandExit initialCommand frameMalformedLength 4).2
        = decode_exit.malformedLength) ∧
    (∀ c : Nat, isASCIIHexDigit c = true ↔ c ∈ asciiHexDigits) ∧
    asciiHexDigits.length = 22 ∧ asciiHexDigits.Nodup ∧ (∀ c ∈ asciiHexDigits, c < 256) :=
  ⟨⟨rfl, by decide, by decide⟩,
    C2_malformed_length_rejected initialCommand frameMalformedLength 4 rfl (by decide)
      (by decide)⟩

/-- C3: round trip.  For every legal command id and every argument length `n`
in 0..4095, decoding from state `READY_FOR_COMMAND` the frame made of the id
byte, the three hex digits of `n` (either case) and `n` argument bytes
succeeds: `validCommandReceived()` is true, `currentCommand()` is the id, the
stored `argLength` is `n` and `commandState` is `READY_FOR_COMMAND`; in
particular the encoding of `(id, 0, "")` decodes to the id with `argLength` 0. -/
theorem C3_round_trip (m : command_t) (lower : Bool) (id n : Nat) (args : List Nat)
    (beyond : Nat → Nat) (hready : m.commandState = READY_FOR_COMMAND)
    (hid : id ∈ legalCommandIDs) (hn : n ≤ 4095) (hargs : args.length = n) :
    (validCommandReceived
        (receiveRawCommand m (bufferAt (encodeFrame lower id n args) beyond) (4 + n)) = true ∧
      currentCommand
        (receiveRawCommand m (bufferAt (encodeFrame lower id n args) beyond) (4 + n)) = id ∧
      (receiveRawCommand m (bufferAt (encodeFrame lower id n args) beyond)
        (4 + n)).command.argLength = n ∧
      (receiveRawCommand m (bufferAt (encodeFrame lower id n args) beyond)
        (4 + n)).commandState = READY_FOR_COMMAND ∧
      (receiveRawCommandExit m (bufferAt (encodeFrame lower id n args) beyond)
        (4 + n)).2 = decode_exit.decoded) ∧
    (validCommandReceived
        (receiveRawCommand m (bufferAt (encodeFrame lower id 0 []) beyond) 4) = true ∧
      currentCommand (receiveRawCommand m (bufferAt (encodeFrame lower id 0 []) beyond) 4) = id ∧
      (receiveRawCommand m (bufferAt (encodeFrame lower id 0 []) beyond) 4).command.argLength
        = 0) := by
  have key : ∀ (k : Nat) (as : List Nat) (len : Nat), k ≤ 4095 →
      receiveRawCommandExit m (bufferAt (encodeFrame lower id k as) beyond) len =
        ({ initialized := m.initialized
           rawCommandReceived := true
           commandValid := true
           command :=
             { commandID := id
               argLength := k
               argData :=
                 strncpy m.command.argData (bufferAt (encodeFrame lower id k as) beyond) 4 k }
           commandState := READY_FOR_COMMAND }, decode_exit.decoded) := by
    intro k as len hk
    have e0 : bufferAt (encodeFrame lower id k as) beyond 0 = id := by
      simp [bufferAt, encodeFrame]
    have e1 : bufferAt (encodeFrame lower id k as) beyond 1 =
        hexDigitChar lower (k / 256 % 16) := by
      simp [bufferAt, encodeFrame]
    have e2 : bufferAt (encodeFrame lower id k as) beyond 2 =
        hexDigitChar lower (k / 16 % 16) := by
      simp [bufferAt, encodeFrame]
    have e3 : bufferAt (encodeFrame lower id k as) beyond 3 = hexDigitChar lower (k % 16) := by
      simp [bufferAt, encodeFrame]
    have d1 := hexDigitChar_spec lower (k / 256 % 16) (Nat.mod_lt _ (by norm_num))
    have d2 := hexDigitChar_spec lower (k / 16 % 16) (Nat.mod_lt _ (by norm_num))
    have d3 := hexDigitChar_spec lower (k % 16) (Nat.mod_lt _ (by norm_num))
    have hlen : 256 * (k / 256 % 16) + 16 * (k / 16 % 16) + k % 16 = k := by omega
    rw [receive_decoded m _ len hready (by rw [e0]; exact hid) (by rw [e1]; exact d1.1)
      (by rw [e2]; exact d2.1) (by rw [e3]; exact d3.1)]
    rw [e0, e1, e2, e3, d1.2, d2.2, d3.2, hlen]
  refine ⟨?_, ?_⟩
  · simp [receiveRawCommand, key n args (4 + n) hn, validCommandReceived, currentCommand]
  · simp [receiveRawCommand, key 0 [] 4 (by norm_num), validCommandReceived, currentCommand]

theorem C3_round_trip_witness :
    (initialCommand.commandState = READY_FOR_COMMAND ∧ FAST_BLINK ∈ legalCommandIDs ∧
      3 ≤ 4095 ∧ [0x78, 0x79, 0x7A].length = 3) ∧
    (validCommandReceived
        (receiveRawCommand initialCommand
          (bufferAt (encodeFrame false FAST_BLINK 3 [0x78, 0x79, 0x7A]) fun _ => 0) (4 + 3))
        = true ∧
      currentCommand
        (receiveRawCommand initialCommand
          (bufferAt (encodeFrame false FAST_BLINK 3 [0x78, 0x79, 0x7A]) fun _ => 0) (4 + 3))
        = FAST_BLINK ∧
      (receiveRawCommand initialCommand
        (bufferAt (encodeFrame false FAST_BLINK 3 [0x78, 0x79, 0x7A]) fun _ => 0)
        (4 + 3)).command.argLength = 3 ∧
      (receiveRawCommand initialCommand
        (bufferAt (encodeFrame false FAST_BLINK 3 [0x78, 0x79, 0x7A]) fun _ => 0)
        (4 + 3)).commandState = READY_FOR_COMMAND ∧
      (receiveRawCommandExit initialCommand
        (bufferAt (encodeFrame false FAST_BLINK 3 [0x78, 0x79, 0x7A]) fun _ => 0)
        (4 + 3)).2 = decode_exit.decoded) ∧
    (validCommandReceived
        (receiveRawCommand initialCommand
          (bufferAt (encodeFrame false FAST_BLINK 0 []) fun _ => 0) 4) = true ∧
      currentCommand
        (receiveRawCommand initialCommand
          (bufferAt (encodeFrame false FAST_BLINK 0 []) fun _ => 0) 4) = FAST_BLINK ∧
      (receiveRawCommand initialCommand
        (bufferAt (encodeFrame false FAST_BLINK 0 []) fun _ => 0) 4).command.argLength = 0) :=
  ⟨⟨rfl, by decide, by decide, rfl⟩,
    C3_round_trip initialCommand false FAST_BLINK 3 [0x78, 0x79, 0x7A] (fun _ => 0) rfl
      (by decide) (by decide) rfl⟩

/-- C4: for every frame with a legal id and three hex digits `d1 d2 d3` (upper
or lower case) in bytes 1..3, received in state `READY_FOR_COMMAND`, the
stored `argLength` is the big-endian value `256*v(d1) + 16*v(d2) + v(d3)` and
lies in 0..4095; `v` maps `0`-`9` to 0..9 and `A`-`F`, `a`-`f` to 10..15. -/
theorem C4_argLength_value (m : command_t) (raw : Nat → Nat) (rawLength : Nat)
    (hready : m.commandState = READY_FOR_COMMAND) (hid : raw 0 ∈ legalCommandIDs)
    (h1 : raw 1 ∈ asciiHexDigits) (h2 : raw 2 ∈ asciiHexDigits) (h3 : raw 3 ∈ asciiHexDigits) :
    (receiveRawCommand m raw rawLength).command.argLength =
        256 * hexDigitValue (raw 1) + 16 * hexDigitValue (raw 2) + hexDigitValue (raw 3) ∧
      (receiveRawCommand m raw rawLength).command.argLength ≤ 4095 ∧
      asciiHexDigits.map hexDigitValue =
        [0, 1, 2, 3, 4, 5, 6, 7, 8, 9, 10, 11, 12, 13, 14, 15, 10, 11, 12, 13, 14, 15] := by
  rw [← isASCIIHexDigit_iff] at h1 h2 h3
  obtain ⟨-, -, -, -, -, -, -, l1⟩ := hexDigit_facts _ h1
  obtain ⟨-, -, -, -, -, -, -, l2⟩ := hexDigit_facts _ h2
  obtain ⟨-, -, -, -, -, -, -, l3⟩ := hexDigit_facts _ h3
  simp only [receiveRawCommand, receive_decoded m raw rawLength hready hid h1 h2 h3]
  refine ⟨trivial, by omega, by decide⟩

theorem C4_argLength_value_witness :
    (initialCommand.commandState = READY_FOR_COMMAND ∧ frameMixedCase 0 ∈ legalCommandIDs ∧
      frameMixedCase 1 ∈ asciiHexDigits ∧ frameMixedCase 2 ∈ asciiHexDigits ∧
      frameMixedCase 3 ∈ asciiHexDigits) ∧
    (receiveRawCommand initialCommand frameMixedCase 4).command.argLength =
        256 * hexDigitValue (frameMixedCase 1) + 16 * hexDigitValue (frameMixedCase 2) +
          hexDigitValue (frameMixedCase 3) ∧
      (receiveRawCommand initialCommand frameMixedCase 4).command.argLength ≤ 4095 ∧
      asciiHexDigits.map hexDigitValue =
        [0, 1, 2, 3, 4, 5, 6, 7, 8, 9, 10, 11, 12, 13, 14, 15, 10, 11, 12, 13, 14, 15] :=
  ⟨⟨rfl, by decide, by decide, by decide, by decide⟩,
    C4_argLength_value initialCommand frameMixedCase 4 rfl (by decide) (by decide) (by decide)
      (by decide)⟩

/-- C5, as stated, fails: the frame `0x01 "003" 'A' 0x00 'B'` (7 bytes) is
decoded successfully with `argLength` 3, but the stored argument bytes are
`'A' 0x00 0x00`, not the frame's `'A' 0x00 'B'`. -/
theorem C5_counterexample :
    validCommandReceived (receiveRawCommand initialCommand frameNulArgument 7) = true ∧
      (receiveRawCommand initialCommand frameNulArgument 7).command.argLength = 3 ∧
      4 + (receiveRawCommand initialCommand frameNulArgument 7).command.argLength ≤ 7 ∧
      (receiveRawCommand initialCommand frameNulArgument 7).command.argData.take 3
        = [0x41, 0x00, 0x00] ∧
      (receiveRawCommand initialCommand frameNulArgument 7).command.argData.take 3
        ≠ [frameNulArgument 4, frameNulArgument 5, frameNulArgument 6] := by
  decide

/-- C5, amended: for every successfully decoded frame that carries at least
`4 + arg_len` bytes, the first `arg_len` bytes of the stored `argData` equal
bytes `4 .. 4+arg_len` of the raw frame up to the first 0x00 byte among them
and are 0x00 from that position on (the copy is a `strncpy`); in particular
they equal the frame's argument bytes whenever none of these is 0x00. -/
theorem C5_argData_copied_up_to_nul (m : command_t) (raw : Nat → Nat) (rawLength : Nat)
    (hready : m.commandState = READY_FOR_COMMAND)
    (hvalid : validCommandReceived (receiveRawCommand m raw rawLength) = true)
    (hlen : 4 + (receiveRawCommand m raw rawLength).command.argLength ≤ rawLength) :
    (∀ i, i < (receiveRawCommand m raw rawLength).command.argLength →
      (receiveRawCommand m raw rawLength).command.argData[i]? =
        some (if ∃ j, j ≤ i ∧ raw (4 + j) = 0 then 0 else raw (4 + i))) ∧
    ((∀ i, i < (receiveRawCommand m raw rawLength).command.argLength → raw (4 + i) ≠ 0) →
      (receiveRawCommand m raw rawLength).command.argData.take
          (receiveRawCommand m raw rawLength).command.argLength =
        (List.range (receiveRawCommand m raw rawLength).command.argLength).map
          fun i => raw (4 + i)) := by
  obtain ⟨hid, h1, h2, h3⟩ := decoded_of_valid m raw rawLength hready hvalid
  simp only [receiveRawCommand, receive_decoded m raw rawLength hready hid h1 h2 h3, strncpy]
  constructor
  · intro i hi
    rw [List.getElem?_append_left (by rw [strncpyBytes_length]; exact hi)]
    exact strncpyBytes_getElem? raw 4 _ i hi
  · intro hnz
    rw [List.take_left' (strncpyBytes_length _ _ _)]
    exact strncpyBytes_of_nonzero raw 4 _ hnz

theorem C5_argData_copied_up_to_nul_witness :
    (initialCommand.commandState = READY_FOR_COMMAND ∧
      validCommandReceived (receiveRawCommand initialCommand frameWithArgument 7) = true ∧
      4 + (receiveRawCommand initialCommand frameWithArgument 7).command.argLength ≤ 7) ∧
    (∀ i, i < (receiveRawCommand initialCommand frameWithArgument 7).command.argLength →
      (receiveRawCommand initialCommand frameWithArgument 7).command.argData[i]? =
        some (if ∃ j, j ≤ i ∧ frameWithArgument (4 + j) = 0 then 0
          else frameWithArgument (4 + i))) ∧
    ((∀ i, i < (receiveRawCommand initialCommand frameWithArgument 7).command.argLength →
        frameWithArgument (4 + i) ≠ 0) →
      (receiveRawCommand initialCommand frameWithArgument 7).command.argData.take
          (receiveRawCommand initialCommand frameWithArgument 7).command.argLength =
        (List.range (receiveRawCommand initialCommand frameWithArgument 7).command.argLength).map
          fun i => frameWithArgument (4 + i)) :=
  ⟨⟨rfl, by decide, by decide⟩,
    C5_argData_copied_up_to_nul initialCommand frameWithArgument 7 rfl (by decide)
      (by decide)⟩

/-- C6 on the code: the frame `0x01 "003"` received with `rawLength = 4`
carries no argument byte, yet `receiveRawCommand` accepts it
(`validCommandReceived()` is true, `argLength` is 3) and stores as argument
the three bytes `xyz` that lie in memory after the received frame. -/
theorem C6_truncated_frame_accepted :
    validCommandReceived (receiveRawCommand initialCommand frameTruncated 4) = true ∧
      (receiveRawCommand initialCommand frameTruncated 4).command.argLength = 3 ∧
      4 < 4 + (receiveRawCommand initialCommand frameTruncated 4).command.argLength ∧
      (receiveRawCommand initialCommand frameTruncated 4).command.argData.take 3
        = [0x78, 0x79, 0x7A] ∧
      (receiveRawCommandExit initialCommand frameTruncated 4).2 = decode_exit.decoded := by
  decide

/-- C7: decode is idempotent on failure.  For every frame that
`receiveRawCommand` rejects from state `READY_FOR_COMMAND`, a second call with
the same frame leaves through the same exit (invalid id or malformed length)
and leaves `m_command` exactly as the first call left it. -/
theorem C7_decode_idempotent_on_failure (m : command_t) (raw : Nat → Nat) (rawLength : Nat)
    (hready : m.commandState = READY_FOR_COMMAND)
    (hrejected : validCommandReceived (receiveRawCommand m raw rawLength) = false) :
    ((receiveRawCommandExit m raw rawLength).2 = decode_exit.invalidCommandID ∨
      (receiveRawCommandExit m raw rawLength).2 = decode_exit.malformedLength) ∧
    (receiveRawCommandExit (receiveRawCommand m raw rawLength) raw rawLength).2 =
      (receiveRawCommandExit m raw rawLength).2 ∧
    receiveRawCommand (receiveRawCommand m raw rawLength) raw rawLength =
      receiveRawCommand m raw rawLength ∧
    validCommandReceived (receiveRawCommand (receiveRawCommand m raw rawLength) raw rawLength)
      = false := by
  have hr : (rejected m raw).commandState = READY_FOR_COMMAND := rfl
  have hrr : rejected (rejected m raw) raw = rejected m raw := rfl
  by_cases hid : raw 0 ∈ legalCommandIDs
  · by_cases hhex : (isASCIIHexDigit (raw 1) && isASCIIHexDigit (raw 2) &&
        isASCIIHexDigit (raw 3)) = true
    · simp only [Bool.and_eq_true] at hhex
      simp [receiveRawCommand,
        receive_decoded m raw rawLength hready hid hhex.1.1 hhex.1.2 hhex.2,
        validCommandReceived] at hrejected
    · rw [Bool.not_eq_true] at hhex
      simp only [receiveRawCommand, receive_malformedLength m raw rawLength hready hid hhex,
        receive_malformedLength (rejected m raw) raw rawLength hr hid hhex, hrr]
      simp [rejected, validCommandReceived]
  · simp only [receiveRawCommand, receive_invalidCommandID m raw rawLength hready hid,
      receive_invalidCommandID (rejected m raw) raw rawLength hr hid, hrr]
    simp [rejected, validCommandReceived]

theorem C7_decode_idempotent_on_failure_witness :
    (initialCommand.commandState = READY_FOR_COMMAND ∧
      validCommandReceived (receiveRawCommand initialCommand frameIllegalId 4) = false) ∧
    ((receiveRawCommandExit initialCommand frameIllegalId 4).2 = decode_exit.invalidCommandID ∨
      (receiveRawCommandExit initialCommand frameIllegalId 4).2 = decode_exit.malformedLength) ∧
    (receiveRawCommandExit (receiveRawCommand initialCommand frameIllegalId 4)
      frameIllegalId 4).2 = (receiveRawCommandExit initialCommand frameIllegalId 4).2 ∧
    receiveRawCommand (receiveRawCommand initialCommand frameIllegalId 4) frameIllegalId 4 =
      receiveRawCommand initialCommand frameIllegalId 4 ∧
    validCommandReceived
      (receiveRawCommand (receiveRawCommand initialCommand frameIllegalId 4) frameIllegalId 4)
      = false :=
  ⟨⟨rfl, by decide⟩,
    C7_decode_idempotent_on_failure initialCommand frameIllegalId 4 rfl (by decide)⟩

/-- C8: for every decoded command with a legal id and `argLength != 0`, each of
the handlers `noCommand`, `fastBlink`, `slowBlink`, `altBlink`, `off`,
`abortCommand` returns `COMMAND_FAILURE` without recording any action, the
handler `executeCommand` calls returns `COMMAND_FAILURE`, and `executeCommand`
records no action at all, hence emits no notification; in particular the
frame `0x01 "003" "xyz"` delivered to `cmd_data_handler` produces none. -/
theorem C8_nonzero_argLength_rejected (m : command_t) (env : ble_env) (log : List action)
    (hid : m.command.commandID ∈ legalCommandIDs) (harg : m.command.argLength ≠ 0) :
    (noCommand m env log = (COMMAND_FAILURE, log) ∧
      fastBlink m env log = (COMMAND_FAILURE, log) ∧
      slowBlink m env log = (COMMAND_FAILURE, log) ∧
      altBlink m env log = (COMMAND_FAILURE, log) ∧
      off m env log = (COMMAND_FAILURE, log) ∧
      abortCommand m env log = (COMMAND_FAILURE, log)) ∧
    (executeCommandStatus m env log).2 = some COMMAND_FAILURE ∧
    (executeCommand m env log).2 = log ∧
    notifications (executeCommand m env log).2 = notifications log ∧
    (cmd_data_handler ble_cmd_evt_type_t.BLE_CMD_EVT_RX_DATA frameWithArgument 7
      initialCommand env log).2 = log := by
  have hv : validCommandReceived (receiveRawCommand initialCommand frameWithArgument 7)
      = true := by decide
  refine ⟨?_, ?_, ?_, ?_, ?_⟩
  · simp [noCommand, fastBlink, slowBlink, altBlink, off, abortCommand, harg]
  · rw [executeCommandStatus_of_argLength_ne_zero m env log hid harg]
  · rw [executeCommand, executeCommandStatus_of_argLength_ne_zero m env log hid harg]
  · rw [executeCommand, executeCommandStatus_of_argLength_ne_zero m env log hid harg]
  · simp only [cmd_data_handler, hv, if_true, executeCommand]
    rw [executeCommandStatus_of_argLength_ne_zero _ env log (by decide) (by decide)]

theorem C8_nonzero_argLength_rejected_witness :
    ((receiveRawCommand initialCommand frameWithArgument 7).command.commandID
        ∈ legalCommandIDs ∧
      (receiveRawCommand initialCommand frameWithArgument 7).command.argLength ≠ 0) ∧
    (noCommand (receiveRawCommand initialCommand frameWithArgument 7) readyLink []
        = (COMMAND_FAILURE, []) ∧
      fastBlink (receiveRawCommand initialCommand frameWithArgument 7) readyLink []
        = (COMMAND_FAILURE, []) ∧
      slowBlink (receiveRawCommand initialCommand frameWithArgument 7) readyLink []
        = (COMMAND_FAILURE, []) ∧
      altBlink (receiveRawCommand initialCommand frameWithArgument 7) readyLink []
        = (COMMAND_FAILURE, []) ∧
      off (receiveRawCommand initialCommand frameWithArgument 7) readyLink []
        = (COMMAND_FAILURE, []) ∧
      abortCommand (receiveRawCommand initialCommand frameWithArgument 7) readyLink []
        = (COMMAND_FAILURE, [])) ∧
    (executeCommandStatus (receiveRawCommand initialCommand frameWithArgument 7) readyLink []).2
      = some COMMAND_FAILURE ∧
    (executeCommand (receiveRawCommand initialCommand frameWithArgument 7) readyLink []).2
      = [] ∧
    notifications
      (executeCommand (receiveRawCommand initialCommand frameWithArgument 7) readyLink []).2
      = notifications [] ∧
    (cmd_data_handler ble_cmd_evt_type_t.BLE_CMD_EVT_RX_DATA frameWithArgument 7
      initialCommand readyLink []).2 = [] :=
  ⟨⟨by decide, by decide⟩,
    C8_nonzero_argLength_rejected (receiveRawCommand initialCommand frameWithArgument 7)
      readyLink [] (by decide) (by decide)⟩

/-- C9: for every decoded command with a legal id and `argLength == 0`,
`executeCommand` calls `bleEventInitiate` exactly once, with the fixed status
text of that id, and the handler it calls returns `COMMAND_SUCCESS`; the six
handlers send "No Command received", "LED blinking quickly",
"LED blinking slowly", "Alternating LEDs", "LEDs are off" and
"Aborting (just pretending...)". -/
theorem C9_zero_argLength_one_response (m : command_t) (env : ble_env) (log : List action)
    (hid : m.command.commandID ∈ legalCommandIDs) (harg : m.command.argLength = 0) :
    (executeCommand m env log).2 = bleEventInitiate env log (statusText m.command.commandID) ∧
    initiated (executeCommand m env log).2 = initiated log ++ [statusText m.command.commandID] ∧
    (executeCommandStatus m env log).2 = some COMMAND_SUCCESS ∧
    (noCommand m env log
        = (COMMAND_SUCCESS, bleEventInitiate env log (cstr "No Command received")) ∧
      fastBlink m env log
        = (COMMAND_SUCCESS, bleEventInitiate env log (cstr "LED blinking quickly")) ∧
      slowBlink m env log
        = (COMMAND_SUCCESS, bleEventInitiate env log (cstr "LED blinking slowly")) ∧
      altBlink m env log
        = (COMMAND_SUCCESS, bleEventInitiate env log (cstr "Alternating LEDs")) ∧
      off m env log = (COMMAND_SUCCESS, bleEventInitiate env log (cstr "LEDs are off")) ∧
      abortCommand m env log
        = (COMMAND_SUCCESS, bleEventInitiate env log (cstr "Aborting (just pretending...)"))) ∧
    (statusText NO_COMMAND = cstr "No Command received" ∧
      statusText FAST_BLINK = cstr "LED blinking quickly" ∧
      statusText SLOW_BLINK = cstr "LED blinking slowly" ∧
      statusText ALT_BLINK = cstr "Alternating LEDs" ∧
      statusText OFF = cstr "LEDs are off" ∧
      statusText ABORT = cstr "Aborting (just pretending...)") := by
  refine ⟨?_, ?_, ?_, ?_, ?_⟩
  · rw [executeCommand, executeCommandStatus_of_argLength_zero m env log hid harg]
  · rw [executeCommand, executeCommandStatus_of_argLength_zero m env log hid harg]
    exact initiated_bleEventInitiate env log _
  · rw [executeCommandStatus_of_argLength_zero m env log hid harg]
  · simp [noCommand, fastBlink, slowBlink, altBlink, off, abortCommand, harg]
  · decide

theorem C9_zero_argLength_one_response_witness :
    ((receiveRawCommand initialCommand frameFastBlink 4).command.commandID ∈ legalCommandIDs ∧
      (receiveRawCommand initialCommand frameFastBlink 4).command.argLength = 0) ∧
    (executeCommand (receiveRawCommand initialCommand frameFastBlink 4) readyLink []).2 =
      bleEventInitiate readyLink []
        (statusText (receiveRawCommand initialCommand frameFastBlink 4).command.commandID) ∧
    initiated (executeCommand (receiveRawCommand initialCommand frameFastBlink 4) readyLink []).2
      = initiated [] ++
        [statusText (receiveRawCommand initialCommand frameFastBlink 4).command.commandID] ∧
    (executeCommandStatus (receiveRawCommand initialCommand frameFastBlink 4) readyLink []).2
      = some COMMAND_SUCCESS ∧
    (noCommand (receiveRawCommand initialCommand frameFastBlink 4) readyLink []
        = (COMMAND_SUCCESS, bleEventInitiate readyLink [] (cstr "No Command received")) ∧
      fastBlink (receiveRawCommand initialCommand frameFastBlink 4) readyLink []
        = (COMMAND_SUCCESS, bleEventInitiate readyLink [] (cstr "LED blinking quickly")) ∧
      slowBlink (receiveRawCommand initialCommand frameFastBlink 4) readyLink []
        = (COMMAND_SUCCESS, bleEventInitiate readyLink [] (cstr "LED blinking slowly")) ∧
      altBlink (receiveRawCommand initialCommand frameFastBlink 4) readyLink []
        = (COMMAND_SUCCESS, bleEventInitiate readyLink [] (cstr "Alternating LEDs")) ∧
      off (receiveRawCommand initialCommand frameFastBlink 4) readyLink []
        = (COMMAND_SUCCESS, bleEventInitiate readyLink [] (cstr "LEDs are off")) ∧
      abortCommand (receiveRawCommand initialCommand frameFastBlink 4) readyLink []
        = (COMMAND_SUCCESS,
            bleEventInitiate readyLink [] (cstr "Aborting (just pretending...)"))) ∧
    (statusText NO_COMMAND = cstr "No Command received" ∧
      statusText FAST_BLINK = cstr "LED blinking quickly" ∧
      statusText SLOW_BLINK = cstr "LED blinking slowly" ∧
      statusText ALT_BLINK = cstr "Alternating LEDs" ∧
      statusText OFF = cstr "LEDs are off" ∧
      statusText ABORT = cstr "Aborting (just pretending...)") :=
  ⟨⟨by decide, by decide⟩,
    C9_zero_argLength_one_response (receiveRawCommand initialCommand frameFastBlink 4)
      readyLink [] (by decide) (by decide)⟩

/-- C10, as stated, fails: for the frame `0x01 "000"` on a link with
notifications enabled the notifications emitted are "dataAvailable:0020" and
the text "LED blinking quickly", which is 20 bytes long; the preamble is not
"dataAvailable:0021" and the text is not 21 bytes long. -/
theorem C10_counterexample :
    notifications
        (cmd_data_handler ble_cmd_evt_type_t.BLE_CMD_EVT_RX_DATA frameFastBlink 4
          initialCommand readyLink []).2 =
      [cstr "dataAvailable:0020", cstr "LED blinking quickly"] ∧
    notifications
        (cmd_data_handler ble_cmd_evt_type_t.BLE_CMD_EVT_RX_DATA frameFastBlink 4
          initialCommand readyLink []).2 ≠
      [cstr "dataAvailable:0021", cstr "LED blinking quickly"] ∧
    (cstr "LED blinking quickly").length ≠ 21 := by
  have h := cmd_data_handler_fastBlink_ready initialCommand readyLink [] rfl rfl (by decide)
    (by decide)
  rw [h]
  decide

/-- C10, amended: end to end, for the input frame `0x01 "000"` (FastBlink,
zero-length argument) received in state `READY_FOR_COMMAND` with notifications
enabled on a valid link whose payload limit is at least 20 bytes, decode and
dispatch succeed and the transmitter emits the preamble "dataAvailable:0020"
followed by the 20-byte text "LED blinking quickly" as a single body
fragment. -/
theorem C10_fastBlink_end_to_end (m : command_t) (env : ble_env) (log : List action)
    (hready : m.commandState = READY_FOR_COMMAND)
    (hlink : env.blcm_link_ctx_get = (NRF_SUCCESS, some { is_notification_enabled := true }))
    (hconn : env.m_connectionHandle ≠ BLE_CONN_HANDLE_INVALID)
    (hmax : 20 ≤ env.BLE_CMD_MAX_DATA_LEN) :
    validCommandReceived (receiveRawCommand m frameFastBlink 4) = true ∧
    (executeCommandStatus (receiveRawCommand m frameFastBlink 4) env log).2
      = some COMMAND_SUCCESS ∧
    notifications
        (cmd_data_handler ble_cmd_evt_type_t.BLE_CMD_EVT_RX_DATA frameFastBlink 4 m env log).2 =
      notifications log ++ [cstr "dataAvailable:0020", cstr "LED blinking quickly"] ∧
    (cstr "LED blinking quickly").length = 20 := by
  have hmem : FAST_BLINK ∈ legalCommandIDs := by decide
  refine ⟨?_, ?_, cmd_data_handler_fastBlink_ready m env log hready hlink hconn hmax,
    by decide⟩
  · rw [receive_frameFastBlink m 4 hready]
    rfl
  · rw [receive_frameFastBlink m 4 hready,
      executeCommandStatus_of_argLength_zero _ env log hmem rfl]

theorem C10_fastBlink_end_to_end_witness :
    (initialCommand.commandState = READY_FOR_COMMAND ∧
      readyLink.blcm_link_ctx_get = (NRF_SUCCESS, some { is_notification_enabled := true }) ∧
      readyLink.m_connectionHandle ≠ BLE_CONN_HANDLE_INVALID ∧
      20 ≤ readyLink.BLE_CMD_MAX_DATA_LEN) ∧
    validCommandReceived (receiveRawCommand initialCommand frameFastBlink 4) = true ∧
    (executeCommandStatus (receiveRawCommand initialCommand frameFastBlink 4) readyLink []).2
      = some COMMAND_SUCCESS ∧
    notifications
        (cmd_data_handler ble_cmd_evt_type_t.BLE_CMD_EVT_RX_DATA frameFastBlink 4
          initialCommand readyLink []).2 =
      notifications [] ++ [cstr "dataAvailable:0020", cstr "LED blinking quickly"] ∧
    (cstr "LED blinking quickly").length = 20 :=
  ⟨⟨rfl, rfl, by decide, by decide⟩,
    C10_fastBlink_end_to_end initialCommand readyLink [] rfl rfl (by decide) (by decide)⟩

/-- C11 on the code: the 3-byte write `0x02 "00"` carries only two length
digits, so it is not a frame with three hex length digits.  Delivered to
`cmd_data_handler` in state `READY_FOR_COMMAND` on a ready link, with a stale
`'0'` in the byte of memory after it, it is accepted and answered: the
notifications "dataAvailable:0019" and "LED blinking slowly" are emitted,
where the claim requires that no notification at all is emitted. -/
theorem C11_short_frame_answered :
    frameShortBytes.length = 3 ∧
    frameShortBytes.length < 4 ∧
    validCommandReceived
      (receiveRawCommand initialCommand frameShort frameShortBytes.length) = true ∧
    initiated
        (cmd_data_handler ble_cmd_evt_type_t.BLE_CMD_EVT_RX_DATA frameShort
          frameShortBytes.length initialCommand readyLink []).2 =
      [cstr "LED blinking slowly"] ∧
    notifications
        (cmd_data_handler ble_cmd_evt_type_t.BLE_CMD_EVT_RX_DATA frameShort
          frameShortBytes.length initialCommand readyLink []).2 =
      [cstr "dataAvailable:0019", cstr "LED blinking slowly"] := by
  have h := cmd_data_handler_response_by_memory initialCommand frameShort
    frameShortBytes.length readyLink [] rfl rfl (by decide) (by decide)
  rw [if_pos (by decide)] at h
  obtain ⟨⟨hinit, hnot, -⟩, -, -⟩ := h
  refine ⟨rfl, by decide, by decide, ?_, ?_⟩
  · rw [hinit]
    decide
  · rw [hnot]
    decide

/-- C12, as stated, fails: after the MTU update to 103 the negotiated payload
limit is 100, on a link that accepts payloads of up to 244 bytes, yet the
50-byte message is sent as three body fragments of 20, 20 and 10 bytes, not
as one fragment of `min(50, 100) = 50` bytes. -/
theorem C12_counterexample :
    gatt_evt_handler 0 m_ble_cmd_max_data_len_init mtuUpdate103 = 100 ∧
    message50.length = 50 ∧
    bodyFragments wideLink [] message50 =
      [List.replicate 20 0x41, List.replicate 20 0x41, List.replicate 10 0x41] ∧
    bodyFragments wideLink [] message50 ≠ [message50] ∧
    notifications (bleEventInitiate wideLink [] message50) =
      [cstr "dataAvailable:0050", List.replicate 20 0x41, List.replicate 20 0x41,
        List.replicate 10 0x41] := by
  refine ⟨by decide, by decide, ?_, ?_, ?_⟩
  · rw [bodyFragments_eq]
    decide
  · rw [bodyFragments_eq]
    decide
  · rw [notifications_bleEventInitiate_ready wideLink [] message50 rfl (by decide) (by decide)]
    decide

/-- C12, amended: for every message, each body fragment sent by the
transmitter has size `min(remaining bytes, 20)`, where 20 is the fixed constant
`BLE_MTU` and the remaining bytes start at the message length as a `uint16_t`;
the payload limit maintained on MTU update is not an input of the transmitter,
so the sizes are the same whatever limit was negotiated. -/
theorem C12_fragment_sizes_fixed_limit (env : ble_env) (log : List action)
    (message : List Nat) :
    (bodyFragments env log message).map List.length =
      (List.range ((message.length % 65536 + 19) / 20)).map
        fun i => min (message.length % 65536 - 20 * i) BLE_MTU := by
  have hl : (message.take (message.length % 65536)).length = message.length % 65536 := by
    rw [List.length_take, Nat.min_eq_left (Nat.mod_le _ _)]
  rw [bodyFragments_eq, fragmentsOf, List.map_map, hl]
  have hc : (message.length % 65536 + BLE_MTU - 1) / BLE_MTU =
      (message.length % 65536 + 19) / 20 := by
    simp [BLE_MTU]
  rw [hc]
  apply List.map_congr_left
  intro i _
  simp only [Function.comp, fragmentAt_length, hl]
  rfl

/-- C13: for every message of length `L <= 65535` the number of body fragments
`bleEventInitiate` passes to `ble_cmd_data_send` is `ceil(L / 20)`, i.e. the
number `n` with `L <= 20 n < L + 20`, and they follow the preamble; an empty
message sends only the preamble, a message of exactly 20 bytes sends one body
fragment, the message itself. -/
theorem C13_fragment_count (env : ble_env) (log : List action) (message : List Nat)
    (hL : message.length ≤ 65535) :
    (bodyFragments env log message).length = (message.length + 19) / 20 ∧
    message.length ≤ 20 * (bodyFragments env log message).length ∧
    20 * (bodyFragments env log message).length < message.length + 20 ∧
    sendAttempts (bleEventInitiate env log message) =
      sendAttempts log ++ sprintf_dataAvailable message.length ::
        bodyFragments env log message ∧
    sendAttempts (bleEventInitiate env log []) = sendAttempts log ++ [cstr "dataAvailable:0000"] ∧
    (∀ b : List Nat, b.length = 20 → bodyFragments env log b = [b]) := by
  have hmod : message.length % 65536 = message.length := Nat.mod_eq_of_lt (by omega)
  have hlen : (bodyFragments env log message).length = (message.length + 19) / 20 := by
    rw [bodyFragments_eq, hmod, List.take_length, fragmentsOf_length]
  refine ⟨hlen, by omega, by omega, ?_, ?_, ?_⟩
  · rw [sendAttempts_bleEventInitiate, bodyFragments_eq, hmod]
  · have he : sprintf_dataAvailable (([] : List Nat).length % 65536) ::
        fragmentsOf BLE_MTU (([] : List Nat).take (([] : List Nat).length % 65536)) =
        [cstr "dataAvailable:0000"] := by decide
    rw [sendAttempts_bleEventInitiate, he]
  · intro b hb
    have hne : b ≠ [] := by
      intro h
      rw [h] at hb
      simp at hb
    have hd : b.drop BLE_MTU = [] := List.drop_eq_nil_of_le (by rw [hb]; decide)
    have ht : b.take BLE_MTU = b := List.take_of_length_le (by rw [hb]; decide)
    rw [bodyFragments_eq, hb, Nat.mod_eq_of_lt (by norm_num), ← hb, List.take_length,
      fragmentsOf_cons b hne, hd, ht, fragmentsOf_nil]

theorem C13_fragment_count_witness :
    message50.length ≤ 65535 ∧
    (bodyFragments wideLink [] message50).length = (message50.length + 19) / 20 ∧
    message50.length ≤ 20 * (bodyFragments wideLink [] message50).length ∧
    20 * (bodyFragments wideLink [] message50).length < message50.length + 20 ∧
    sendAttempts (bleEventInitiate wideLink [] message50) =
      sendAttempts [] ++ sprintf_dataAvailable message50.length ::
        bodyFragments wideLink [] message50 ∧
    sendAttempts (bleEventInitiate wideLink [] []) = sendAttempts [] ++ [cstr "dataAvailable:0000"] ∧
    (∀ b : List Nat, b.length = 20 → bodyFragments wideLink [] b = [b]) :=
  ⟨by decide, C13_fragment_count wideLink [] message50 (by decide)⟩

/-- C14: for every message of length `L <= 65535` the concatenation, in send
order, of the body fragments `bleEventInitiate` passes to `ble_cmd_data_send`
is the original message, and every fragment is non-empty. -/
theorem C14_fragments_concatenate (env : ble_env) (log : List action) (message : List Nat)
    (hL : message.length ≤ 65535) :
    (bodyFragments env log message).flatten = message ∧
    ∀ f ∈ bodyFragments env log message, f ≠ [] := by
  have hmod : message.length % 65536 = message.length := Nat.mod_eq_of_lt (by omega)
  rw [bodyFragments_eq, hmod, List.take_length]
  refine ⟨fragmentsOf_flatten message, ?_⟩
  intro f hf hnil
  have := (fragmentsOf_mem_length message f hf).1
  rw [hnil] at this
  simp at this

theorem C14_fragments_concatenate_witness :
    message50.length ≤ 65535 ∧
    (bodyFragments wideLink [] message50).flatten = message50 ∧
    ∀ f ∈ bodyFragments wideLink [] message50, f ≠ [] :=
  ⟨by decide, C14_fragments_concatenate wideLink [] message50 (by decide)⟩

/-- C15: for every message of length `L <= 9999` the first send of
`bleEventInitiate` carries exactly the 18 bytes "dataAvailable:" followed by
`L` in decimal, zero-padded to 4 digits; it precedes every body fragment, and
on a ready link it is the first notification emitted. -/
theorem C15_preamble (env : ble_env) (log : List action) (message : List Nat)
    (hL : message.length ≤ 9999) :
    sendAttempts (bleEventInitiate env log message) =
      sendAttempts log ++
        (cstr "dataAvailable:" ++
          [48 + message.length / 1000, 48 + message.length / 100 % 10,
            48 + message.length / 10 % 10, 48 + message.length % 10]) ::
        bodyFragments env log message ∧
    (cstr "dataAvailable:" ++
      [48 + message.length / 1000, 48 + message.length / 100 % 10,
        48 + message.length / 10 % 10, 48 + message.length % 10]).length = 18 ∧
    (env.blcm_link_ctx_get = (NRF_SUCCESS, some { is_notification_enabled := true }) →
      env.m_connectionHandle ≠ BLE_CONN_HANDLE_INVALID → 20 ≤ env.BLE_CMD_MAX_DATA_LEN →
      notifications (bleEventInitiate env log message) =
        notifications log ++
          (cstr "dataAvailable:" ++
            [48 + message.length / 1000, 48 + message.length / 100 % 10,
              48 + message.length / 10 % 10, 48 + message.length % 10]) ::
          bodyFragments env log message) := by
  have hmod : message.length % 65536 = message.length := Nat.mod_eq_of_lt (by omega)
  have hpre : sprintf_dataAvailable message.length =
      cstr "dataAvailable:" ++
        [48 + message.length / 1000, 48 + message.length / 100 % 10,
          48 + message.length / 10 % 10, 48 + message.length % 10] := by
    rw [sprintf_dataAvailable, fmt04d_eq _ hL]
  have hc : (cstr "dataAvailable:").length = 14 := by decide
  refine ⟨?_, ?_, ?_⟩
  · rw [sendAttempts_bleEventInitiate, bodyFragments_eq, hmod, hpre]
  · rw [List.length_append, hc]
    rfl
  · intro hlink hconn hmax
    rw [notifications_bleEventInitiate_ready env log message hlink hconn hmax, bodyFragments_eq,
      hmod, hpre]

theorem C15_preamble_witness :
    message50.length ≤ 9999 ∧
    sendAttempts (bleEventInitiate wideLink [] message50) =
      sendAttempts [] ++
        (cstr "dataAvailable:" ++
          [48 + message50.length / 1000, 48 + message50.length / 100 % 10,
            48 + message50.length / 10 % 10, 48 + message50.length % 10]) ::
        bodyFragments wideLink [] message50 ∧
    (cstr "dataAvailable:" ++
      [48 + message50.length / 1000, 48 + message50.length / 100 % 10,
        48 + message50.length / 10 % 10, 48 + message50.length % 10]).length = 18 ∧
    (wideLink.blcm_link_ctx_get = (NRF_SUCCESS, some { is_notification_enabled := true }) →
      wideLink.m_connectionHandle ≠ BLE_CONN_HANDLE_INVALID →
      20 ≤ wideLink.BLE_CMD_MAX_DATA_LEN →
      notifications (bleEventInitiate wideLink [] message50) =
        notifications [] ++
          (cstr "dataAvailable:" ++
            [48 + message50.length / 1000, 48 + message50.length / 100 % 10,
              48 + message50.length / 10 % 10, 48 + message50.length % 10]) ::
          bodyFragments wideLink [] message50) :=
  ⟨by decide, C15_preamble wideLink [] message50 (by decide)⟩

/-- C16: gating.  On a link with a link context and a valid connection handle
whose notifications are not enabled, every call of `ble_cmd_data_send` returns
`NRF_ERROR_INVALID_STATE` without calling `sd_ble_gatts_hvx`, and
`bleEventInitiate` hands no notification to the transport: the send of the
preamble and the send of every fragment fail with that code. -/
theorem C16_gating (env : ble_env) (log : List action) (message : List Nat)
    (hlink : env.blcm_link_ctx_get = (NRF_SUCCESS, some { is_notification_enabled := false }))
    (hconn : env.m_connectionHandle ≠ BLE_CONN_HANDLE_INVALID) :
    (∀ (l : List action) (p_data : List Nat) (p_length : Nat),
      ble_cmd_data_send env l p_data p_length =
        (NRF_ERROR_INVALID_STATE,
          l ++ [action.data_send (p_data.take p_length) NRF_ERROR_INVALID_STATE])) ∧
    notifications (bleEventInitiate env log message) = notifications log ∧
    sendResults (bleEventInitiate env log message) =
      sendResults log ++
        List.replicate (1 + (message.length % 65536 + 19) / 20) NRF_ERROR_INVALID_STATE ∧
    NRF_ERROR_INVALID_STATE ≠ NRF_SUCCESS :=
  ⟨fun l p_data p_length => ble_cmd_data_send_disabled env l p_data p_length hlink hconn,
    (bleEventInitiate_disabled env log message hlink hconn).1,
    (bleEventInitiate_disabled env log message hlink hconn).2, by decide⟩

theorem C16_gating_witness :
    (disabledLink.blcm_link_ctx_get
        = (NRF_SUCCESS, some { is_notification_enabled := false }) ∧
      disabledLink.m_connectionHandle ≠ BLE_CONN_HANDLE_INVALID) ∧
    (∀ (l : List action) (p_data : List Nat) (p_length : Nat),
      ble_cmd_data_send disabledLink l p_data p_length =
        (NRF_ERROR_INVALID_STATE,
          l ++ [action.data_send (p_data.take p_length) NRF_ERROR_INVALID_STATE])) ∧
    notifications (bleEventInitiate disabledLink [] message50) = notifications [] ∧
    sendResults (bleEventInitiate disabledLink [] message50) =
      sendResults [] ++
        List.replicate (1 + (message50.length % 65536 + 19) / 20) NRF_ERROR_INVALID_STATE ∧
    NRF_ERROR_INVALID_STATE ≠ NRF_SUCCESS :=
  ⟨⟨rfl, by decide⟩, C16_gating disabledLink [] message50 rfl (by decide)⟩

/-- C17, as stated, fails: on a link whose notifications are not enabled the
send of the preamble of "LED blinking quickly" returns the non-zero code
`NRF_ERROR_INVALID_STATE`, and `bleEventInitiate` still attempts the send of
the body fragment. -/
theorem C17_counterexample :
    sendResults (bleEventInitiate disabledLink [] (cstr "LED blinking quickly")) =
      [NRF_ERROR_INVALID_STATE, NRF_ERROR_INVALID_STATE] ∧
    NRF_ERROR_INVALID_STATE ≠ 0 ∧
    sendAttempts (bleEventInitiate disabledLink [] (cstr "LED blinking quickly")) =
      [cstr "dataAvailable:0020", cstr "LED blinking quickly"] := by
  refine ⟨?_, by decide, ?_⟩
  · rw [(bleEventInitiate_disabled disabledLink [] _ rfl (by decide)).2]
    decide
  · rw [sendAttempts_bleEventInitiate]
    decide

/-- C17, amended: the transmitter continues after a failed send.  For every
message and whatever codes the sends return, `bleEventInitiate` attempts the
send of the preamble and of every body fragment, `1 + ceil(L / 20)` calls of
`ble_cmd_data_send` for the message length `L` as a `uint16_t`; a non-zero
code is only logged. -/
theorem C17_sends_continue_after_failure (env : ble_env) (log : List action)
    (message : List Nat) :
    sendAttempts (bleEventInitiate env log message) =
      sendAttempts log ++ sprintf_dataAvailable (message.length % 65536) ::
        fragmentsOf BLE_MTU (message.take (message.length % 65536)) ∧
    (sendResults (bleEventInitiate env log message)).length =
      (sendResults log).length + 1 + (message.length % 65536 + 19) / 20 :=
  ⟨sendAttempts_bleEventInitiate env log message,
    sendResults_bleEventInitiate_length env log message⟩

/-- C18, as stated, fails: for the decoded frame `0x01 "000"` on a link whose
notifications are not enabled every send of the response fails with
`NRF_ERROR_INVALID_STATE`, and the handler `fastBlink` still returns
`COMMAND_SUCCESS`. -/
theorem C18_counterexample :
    sendResults
        (executeCommand (receiveRawCommand initialCommand frameFastBlink 4) disabledLink []).2 =
      [NRF_ERROR_INVALID_STATE, NRF_ERROR_INVALID_STATE] ∧
    (executeCommandStatus (receiveRawCommand initialCommand frameFastBlink 4) disabledLink []).2
      = some COMMAND_SUCCESS ∧
    (fastBlink (receiveRawCommand initialCommand frameFastBlink 4) disabledLink []).1
      = COMMAND_SUCCESS := by
  have hmem : FAST_BLINK ∈ legalCommandIDs := by decide
  have hs : statusText FAST_BLINK = cstr "LED blinking quickly" := by decide
  rw [receive_frameFastBlink initialCommand 4 rfl, executeCommand,
    executeCommandStatus_of_argLength_zero _ disabledLink [] hmem rfl]
  refine ⟨?_, rfl, rfl⟩
  simp only [hs]
  rw [(bleEventInitiate_disabled disabledLink [] _ rfl (by decide)).2]
  decide

/-- C18, amended: for every decoded command with a legal id and a zero-length
argument the handler returns `COMMAND_SUCCESS` whatever the sends of the
response return, the send results not being propagated, and `commandState` is
reset to `READY_FOR_COMMAND`; in particular this holds when every send fails
because notifications are not enabled. -/
theorem C18_send_failure_not_propagated (m : command_t) (env : ble_env) (log : List action)
    (hid : m.command.commandID ∈ legalCommandIDs) (harg : m.command.argLength = 0) :
    (executeCommandStatus m env log).2 = some COMMAND_SUCCESS ∧
    (executeCommand m env log).1.commandState = READY_FOR_COMMAND ∧
    (env.blcm_link_ctx_get = (NRF_SUCCESS, some { is_notification_enabled := false }) →
      env.m_connectionHandle ≠ BLE_CONN_HANDLE_INVALID →
      sendResults (executeCommand m env log).2 =
        sendResults log ++
          List.replicate (1 + ((statusText m.command.commandID).length % 65536 + 19) / 20)
            NRF_ERROR_INVALID_STATE) := by
  refine ⟨?_, ?_, ?_⟩
  · rw [executeCommandStatus_of_argLength_zero m env log hid harg]
  · rw [executeCommand_state]
  · intro hlink hconn
    rw [executeCommand, executeCommandStatus_of_argLength_zero m env log hid harg]
    exact (bleEventInitiate_disabled env log _ hlink hconn).2

theorem C18_send_failure_not_propagated_witness :
    ((receiveRawCommand initialCommand frameFastBlink 4).command.commandID ∈ legalCommandIDs ∧
      (receiveRawCommand initialCommand frameFastBlink 4).command.argLength = 0) ∧
    (executeCommandStatus (receiveRawCommand initialCommand frameFastBlink 4) disabledLink []).2
      = some COMMAND_SUCCESS ∧
    (executeCommand (receiveRawCommand initialCommand frameFastBlink 4)
      disabledLink []).1.commandState = READY_FOR_COMMAND ∧
    (disabledLink.blcm_link_ctx_get
        = (NRF_SUCCESS, some { is_notification_enabled := false }) →
      disabledLink.m_connectionHandle ≠ BLE_CONN_HANDLE_INVALID →
      sendResults
          (executeCommand (receiveRawCommand initialCommand frameFastBlink 4) disabledLink []).2 =
        sendResults [] ++
          List.replicate
            (1 + ((statusText
              (receiveRawCommand initialCommand frameFastBlink 4).command.commandID).length
                % 65536 + 19) / 20)
            NRF_ERROR_INVALID_STATE) :=
  ⟨⟨by decide, by decide⟩,
    C18_send_failure_not_propagated (receiveRawCommand initialCommand frameFastBlink 4)
      disabledLink [] (by decide) (by decide)⟩

/-- C19: after `executeCommand` returns, for every prior state and whatever
the handler returned, `commandState` is `READY_FOR_COMMAND` and
`validCommandReceived()` is false.  Hence under `cmd_data_handler`, which
executes only if `validCommandReceived()`, the command is not executed again:
a following frame that does not decode leaves `validCommandReceived()` false
and records no action, an event other than received data changes nothing, and
after every call of `cmd_data_handler` for received data
`validCommandReceived()` is false again. -/
theorem C19_executed_at_most_once (m : command_t) (env : ble_env) (log : List action) :
    validCommandReceived (executeCommand m env log).1 = false ∧
    (executeCommand m env log).1.commandState = READY_FOR_COMMAND ∧
    (∀ (raw : Nat → Nat) (rawLength : Nat) (env1 : ble_env) (log1 : List action),
      (raw 0 ∉ legalCommandIDs ∨ raw 1 ∉ asciiHexDigits ∨ raw 2 ∉ asciiHexDigits ∨
        raw 3 ∉ asciiHexDigits) →
      validCommandReceived (receiveRawCommand (executeCommand m env log).1 raw rawLength)
        = false ∧
      cmd_data_handler ble_cmd_evt_type_t.BLE_CMD_EVT_RX_DATA raw rawLength
        (executeCommand m env log).1 env1 log1 =
        (receiveRawCommand (executeCommand m env log).1 raw rawLength, log1)) ∧
    (∀ (type : ble_cmd_evt_type_t) (raw : Nat → Nat) (rawLength : Nat) (env1 : ble_env)
      (log1 : List action), type ≠ ble_cmd_evt_type_t.BLE_CMD_EVT_RX_DATA →
      cmd_data_handler type raw rawLength (executeCommand m env log).1 env1 log1 =
        ((executeCommand m env log).1, log1)) ∧
    (∀ (m0 : command_t) (raw : Nat → Nat) (rawLength : Nat) (env1 : ble_env)
      (log1 : List action),
      validCommandReceived (cmd_data_handler ble_cmd_evt_type_t.BLE_CMD_EVT_RX_DATA raw
        rawLength m0 env1 log1).1 = false) := by
  have hstate : (executeCommand m env log).1.commandState = READY_FOR_COMMAND := by
    rw [executeCommand_state]
  refine ⟨?_, hstate, ?_, ?_, ?_⟩
  · rw [executeCommand_state]
    rfl
  · intro raw rawLength env1 log1 hrej
    have h := cmd_data_handler_rejected (executeCommand m env log).1 raw rawLength env1 log1
      hstate hrej
    have hv : validCommandReceived
        (receiveRawCommand (executeCommand m env log).1 raw rawLength) = false := by
      by_contra hne
      rw [Bool.not_eq_false] at hne
      obtain ⟨hid, h1, h2, h3⟩ := decoded_of_valid _ raw rawLength hstate hne
      rw [isASCIIHexDigit_iff] at h1 h2 h3
      tauto
    refine ⟨hv, ?_⟩
    simp [cmd_data_handler, hv]
  · intro type raw rawLength env1 log1 htype
    simp [cmd_data_handler, htype]
  · intro m0 raw rawLength env1 log1
    by_cases hv : validCommandReceived (receiveRawCommand m0 raw rawLength) = true
    · simp only [cmd_data_handler, hv, if_true]
      rw [executeCommand_state]
      rfl
    · rw [Bool.not_eq_true] at hv
      simp [cmd_data_handler, hv]

/-- C20, as stated, fails: with `FAST_BLINK` as the stored command, the
rejected frame `0xAA "000"` (illegal id) changes `currentCommand()` to `0xAA`,
and the rejected frame `0x02 "0G0"` (malformed length) changes it to
`SLOW_BLINK`. -/
theorem C20_counterexample :
    currentCommand (receiveRawCommand initialCommand frameFastBlink 4) = FAST_BLINK ∧
    validCommandReceived
      (receiveRawCommand (receiveRawCommand initialCommand frameFastBlink 4) frameIllegalId 4)
      = false ∧
    currentCommand
      (receiveRawCommand (receiveRawCommand initialCommand frameFastBlink 4) frameIllegalId 4)
      = 0xAA ∧
    validCommandReceived
      (receiveRawCommand (receiveRawCommand initialCommand frameFastBlink 4)
        frameSlowMalformed 4) = false ∧
    currentCommand
      (receiveRawCommand (receiveRawCommand initialCommand frameFastBlink 4)
        frameSlowMalformed 4) = SLOW_BLINK ∧
    SLOW_BLINK ≠ FAST_BLINK := by
  decide

/-- C20, amended: for every frame that `receiveRawCommand` rejects from state
`READY_FOR_COMMAND` (illegal id, or legal id with malformed length digits) the
stored `argLength` and `argData` are the same after the call as before it,
while `commandID` is overwritten with the first byte of the frame, so
`currentCommand()` returns that byte after a rejected frame. -/
theorem C20_rejected_frame_effect (m : command_t) (raw : Nat → Nat) (rawLength : Nat)
    (hready : m.commandState = READY_FOR_COMMAND)
    (hrej : raw 0 ∉ legalCommandIDs ∨ raw 1 ∉ asciiHexDigits ∨ raw 2 ∉ asciiHexDigits ∨
      raw 3 ∉ asciiHexDigits) :
    (receiveRawCommand m raw rawLength).command.argLength = m.command.argLength ∧
    (receiveRawCommand m raw rawLength).command.argData = m.command.argData ∧
    (receiveRawCommand m raw rawLength).command.commandID = raw 0 ∧
    currentCommand (receiveRawCommand m raw rawLength) = raw 0 ∧
    validCommandReceived (receiveRawCommand m raw rawLength) = false := by
  have hrec : receiveRawCommand m raw rawLength = rejected m raw := by
    by_cases hid : raw 0 ∈ legalCommandIDs
    · have hfalse : (isASCIIHexDigit (raw 1) && isASCIIHexDigit (raw 2) &&
          isASCIIHexDigit (raw 3)) = false := by
        rw [← Bool.not_eq_true]
        simp only [Bool.and_eq_true, isASCIIHexDigit_iff]
        tauto
      rw [receiveRawCommand, receive_malformedLength m raw rawLength hready hid hfalse]
    · rw [receiveRawCommand, receive_invalidCommandID m raw rawLength hready hid]
  rw [hrec]
  simp [rejected, currentCommand, validCommandReceived]

theorem C20_rejected_frame_effect_witness :
    ((receiveRawCommand initialCommand frameFastBlink 4).commandState = READY_FOR_COMMAND ∧
      (frameSlowMalformed 0 ∉ legalCommandIDs ∨ frameSlowMalformed 1 ∉ asciiHexDigits ∨
        frameSlowMalformed 2 ∉ asciiHexDigits ∨ frameSlowMalformed 3 ∉ asciiHexDigits)) ∧
    (receiveRawCommand (receiveRawCommand initialCommand frameFastBlink 4)
      frameSlowMalformed 4).command.argLength
      = (receiveRawCommand initialCommand frameFastBlink 4).command.argLength ∧
    (receiveRawCommand (receiveRawCommand initialCommand frameFastBlink 4)
      frameSlowMalformed 4).command.argData
      = (receiveRawCommand initialCommand frameFastBlink 4).command.argData ∧
    (receiveRawCommand (receiveRawCommand initialCommand frameFastBlink 4)
      frameSlowMalformed 4).command.commandID = frameSlowMalformed 0 ∧
    currentCommand (receiveRawCommand (receiveRawCommand initialCommand frameFastBlink 4)
      frameSlowMalformed 4) = frameSlowMalformed 0 ∧
    validCommandReceived (receiveRawCommand (receiveRawCommand initialCommand frameFastBlink 4)
      frameSlowMalformed 4) = false :=
  ⟨⟨by decide, by decide⟩,
    C20_rejected_frame_effect (receiveRawCommand initialCommand frameFastBlink 4)
      frameSlowMalformed 4 (by decide) (by decide)⟩

/-- C21: admission control.  In every state whose `commandState` is not
`READY_FOR_COMMAND`, `receiveRawCommand` returns through the dropping exit for
every raw frame and leaves `m_command` unchanged, field by field:
`commandState`, `rawCommandReceived`, `commandValid`, `commandID`, `argLength`
and `argData`. -/
theorem C21_frame_dropped_when_not_ready (m : command_t) (raw : Nat → Nat) (rawLength : Nat)
    (hbusy : m.commandState ≠ READY_FOR_COMMAND) :
    receiveRawCommand m raw rawLength = m ∧
    (receiveRawCommandExit m raw rawLength).2 = decode_exit.dropped ∧
    (receiveRawCommand m raw rawLength).commandState = m.commandState ∧
    (receiveRawCommand m raw rawLength).rawCommandReceived = m.rawCommandReceived ∧
    (receiveRawCommand m raw rawLength).commandValid = m.commandValid ∧
    (receiveRawCommand m raw rawLength).command.commandID = m.command.commandID ∧
    (receiveRawCommand m raw rawLength).command.argLength = m.command.argLength ∧
    (receiveRawCommand m raw rawLength).command.argData = m.command.argData := by
  have h : receiveRawCommandExit m raw rawLength = (m, decode_exit.dropped) := by
    simp [receiveRawCommandExit, hbusy]
  simp [receiveRawCommand, h]

theorem C21_frame_dropped_when_not_ready_witness :
    decodingCommand.commandState ≠ READY_FOR_COMMAND ∧
    receiveRawCommand decodingCommand frameFastBlink 4 = decodingCommand ∧
    (receiveRawCommandExit decodingCommand frameFastBlink 4).2 = decode_exit.dropped ∧
    (receiveRawCommand decodingCommand frameFastBlink 4).commandState
      = decodingCommand.commandState ∧
    (receiveRawCommand decodingCommand frameFastBlink 4).rawCommandReceived
      = decodingCommand.rawCommandReceived ∧
    (receiveRawCommand decodingCommand frameFastBlink 4).commandValid
      = decodingCommand.commandValid ∧
    (receiveRawCommand decodingCommand frameFastBlink 4).command.commandID
      = decodingCommand.command.commandID ∧
    (receiveRawCommand decodingCommand frameFastBlink 4).command.argLength
      = decodingCommand.command.argLength ∧
    (receiveRawCommand decodingCommand frameFastBlink 4).command.argData
      = decodingCommand.command.argData :=
  ⟨by decide, C21_frame_dropped_when_not_ready decodingCommand frameFastBlink 4 (by decide)⟩

/-- C22 on the code: for the 29-byte message "Aborting (just pretending...)" on
a ready link the actions of `bleEventInitiate` are, in order: the notification
of the preamble, the notification of the first body fragment with no delay in
between, a 10 ms delay, the notification of the second body fragment, a 10 ms
delay. -/
theorem C22_no_delay_after_preamble :
    bleEventInitiate readyLink [] (cstr "Aborting (just pretending...)") =
      [action.initiate (cstr "Aborting (just pretending...)"),
        action.hvx 0 (cstr "dataAvailable:0029"),
        action.data_send (cstr "dataAvailable:0029") NRF_SUCCESS,
        action.hvx 0 (cstr "Aborting (just prete"),
        action.data_send (cstr "Aborting (just prete") NRF_SUCCESS,
        action.delay_ms 10,
        action.hvx 0 (cstr "nding...)"),
        action.data_send (cstr "nding...)") NRF_SUCCESS,
        action.delay_ms 10] := by
  rw [bleEventInitiate_eq_foldl]
  decide

/-- C23, as stated, fails: on a connection whose notifications are already
enabled, the 2-byte write `01 00` to the notification descriptor leaves the
flag unchanged and still signals "communication started" to the data
handler. -/
theorem C23_counterexample :
    on_write serviceHandles (NRF_SUCCESS, some { is_notification_enabled := true }) writeEnable =
      (some { is_notification_enabled := true },
        [{ type := ble_cmd_evt_type_t.BLE_CMD_EVT_COMM_STARTED
           p_link_ctx := some { is_notification_enabled := true }
           rx_data := []
           rx_length := 0 }]) ∧
    (on_write serviceHandles (NRF_SUCCESS, some { is_notification_enabled := true })
      writeEnable).2 ≠ [] := by
  decide

/-- C23, amended: for every 2-byte write to the notification descriptor of the
response characteristic on a connection with a link context, `on_write` sets
`is_notification_enabled` to the written enable bit and, when a data handler
is registered, signals "communication started" if the bit is set and
"communication stopped" if it is clear, on every such write, whether or not
the flag changes. -/
theorem C23_descriptor_write (p_cmd : ble_cmd_t)
    (link_ctx : Nat × Option ble_cmd_client_context_t) (p_client : ble_cmd_client_context_t)
    (p_evt_write : ble_gatts_evt_write_t)
    (hhandle : p_evt_write.handle = p_cmd.tx_cccd_handle) (hlen : p_evt_write.len = 2)
    (hctx : link_ctx.2 = some p_client) :
    (on_write p_cmd link_ctx p_evt_write).1 =
      some { is_notification_enabled := enableBit p_evt_write.data } ∧
    (on_write p_cmd link_ctx p_evt_write).2.map (fun evt => evt.type) =
      (if p_cmd.data_handler = true then
        [if enableBit p_evt_write.data = true then ble_cmd_evt_type_t.BLE_CMD_EVT_COMM_STARTED
          else ble_cmd_evt_type_t.BLE_CMD_EVT_COMM_STOPPED]
      else []) := by
  unfold on_write
  simp only [hhandle, hlen, and_self, if_true, hctx, ble_srv_is_notification_enabled_eq]
  cases hb : enableBit p_evt_write.data <;> cases hh : p_cmd.data_handler <;> simp

theorem C23_descriptor_write_witness :
    (writeEnable.handle = serviceHandles.tx_cccd_handle ∧ writeEnable.len = 2 ∧
      ((NRF_SUCCESS, some { is_notification_enabled := true }) :
        Nat × Option ble_cmd_client_context_t).2 = some { is_notification_enabled := true }) ∧
    (on_write serviceHandles (NRF_SUCCESS, some { is_notification_enabled := true })
      writeEnable).1 = some { is_notification_enabled := enableBit writeEnable.data } ∧
    (on_write serviceHandles (NRF_SUCCESS, some { is_notification_enabled := true })
      writeEnable).2.map (fun evt => evt.type) =
      (if serviceHandles.data_handler = true then
        [if enableBit writeEnable.data = true then ble_cmd_evt_type_t.BLE_CMD_EVT_COMM_STARTED
          else ble_cmd_evt_type_t.BLE_CMD_EVT_COMM_STOPPED]
      else []) :=
  ⟨⟨rfl, rfl, rfl⟩,
    C23_descriptor_write serviceHandles (NRF_SUCCESS, some { is_notification_enabled := true })
      { is_notification_enabled := true } writeEnable rfl rfl rfl⟩

/-- C24: under the frame invariant (legal id, three hex digits in bytes 1..3,
`rawLength >= 4 + arg_len`) every index at which `receiveRawCommand` reads
`raw` is below `rawLength`, every index it writes in `argData` is below the
capacity 4095 and every index it writes in the debug buffer `argString`,
the terminator at index `arg_len` included, is below the capacity 4096; the
argument length is at most 4095, and from state `READY_FOR_COMMAND` the frame
is decoded with that `arg_len`. -/
theorem C24_accesses_in_bounds (m : command_t) (raw : Nat → Nat) (rawLength : Nat)
    (hid : raw 0 ∈ legalCommandIDs) (h1 : raw 1 ∈ asciiHexDigits)
    (h2 : raw 2 ∈ asciiHexDigits) (h3 : raw 3 ∈ asciiHexDigits)
    (hlen : 4 + (256 * hexDigitValue (raw 1) + 16 * hexDigitValue (raw 2) +
      hexDigitValue (raw 3)) ≤ rawLength) :
    (∀ i ∈ (receiveRawCommandAccesses m raw rawLength).rawReads, i < rawLength) ∧
    (∀ j ∈ (receiveRawCommandAccesses m raw rawLength).argDataWrites,
      j < COMMAND_ARG_DATA_FIELD_MAX_LENGTH) ∧
    (∀ j ∈ (receiveRawCommandAccesses m raw rawLength).argStringWrites, j < 4096) ∧
    256 * hexDigitValue (raw 1) + 16 * hexDigitValue (raw 2) + hexDigitValue (raw 3) ≤ 4095 ∧
    (m.commandState = READY_FOR_COMMAND →
      (receiveRawCommandExit m raw rawLength).2 = decode_exit.decoded ∧
      (receiveRawCommand m raw rawLength).command.argLength =
        256 * hexDigitValue (raw 1) + 16 * hexDigitValue (raw 2) + hexDigitValue (raw 3) ∧
      (receiveRawCommandAccesses m raw rawLength).argDataWrites =
        List.range (256 * hexDigitValue (raw 1) + 16 * hexDigitValue (raw 2) +
          hexDigitValue (raw 3)) ∧
      (256 * hexDigitValue (raw 1) + 16 * hexDigitValue (raw 2) + hexDigitValue (raw 3)) ∈
        (receiveRawCommandAccesses m raw rawLength).argStringWrites) := by
  rw [← isASCIIHexDigit_iff] at h1 h2 h3
  obtain ⟨-, -, -, -, -, -, -, l1⟩ := hexDigit_facts _ h1
  obtain ⟨-, -, -, -, -, -, -, l2⟩ := hexDigit_facts _ h2
  obtain ⟨-, -, -, -, -, -, -, l3⟩ := hexDigit_facts _ h3
  have hv : isValidCommandID
      { initialized := m.initialized, rawCommandReceived := m.rawCommandReceived,
        commandValid := false, command := { m.command with commandID := raw 0 },
        commandState := DECODING_COMMAND } = true := by
    rw [isValidCommandID_iff]
    exact hid
  have hl : (strtol16 [raw 1, raw 2, raw 3, 0] % 65536).toNat =
      256 * hexDigitValue (raw 1) + 16 * hexDigitValue (raw 2) + hexDigitValue (raw 3) := by
    rw [strtol16_hex3 _ _ _ h1 h2 h3]
    omega
  by_cases hready : m.commandState = READY_FOR_COMMAND
  · have hacc : receiveRawCommandAccesses m raw rawLength =
        { rawReads := [0, 1, 2, 3] ++ [1, 2, 3] ++
            strncpyReads raw 4 (256 * hexDigitValue (raw 1) + 16 * hexDigitValue (raw 2) +
              hexDigitValue (raw 3)) ++
            strncpyReads raw 4 (256 * hexDigitValue (raw 1) + 16 * hexDigitValue (raw 2) +
              hexDigitValue (raw 3))
          argDataWrites := List.range (256 * hexDigitValue (raw 1) +
            16 * hexDigitValue (raw 2) + hexDigitValue (raw 3))
          argStringWrites := List.range (256 * hexDigitValue (raw 1) +
            16 * hexDigitValue (raw 2) + hexDigitValue (raw 3)) ++
            [256 * hexDigitValue (raw 1) + 16 * hexDigitValue (raw 2) +
              hexDigitValue (raw 3)] } := by
      simp [receiveRawCommandAccesses, hready, hv, h1, h2, h3, hl]
    rw [hacc]
    refine ⟨?_, ?_, ?_, by omega, ?_⟩
    · intro i hi
      simp only [List.mem_append, List.mem_cons, List.mem_singleton, List.not_mem_nil,
        or_false] at hi
      rcases hi with ((h | h) | h) | h
      · omega
      · omega
      · have := strncpyReads_bound raw 4 _ i h
        omega
      · have := strncpyReads_bound raw 4 _ i h
        omega
    · intro j hj
      simp only [List.mem_range] at hj
      simp only [COMMAND_ARG_DATA_FIELD_MAX_LENGTH]
      omega
    · intro j hj
      simp only [List.mem_append, List.mem_range, List.mem_singleton] at hj
      omega
    · intro _
      refine ⟨?_, ?_, rfl, ?_⟩
      · rw [receive_decoded m raw rawLength hready hid h1 h2 h3]
      · rw [receiveRawCommand, receive_decoded m raw rawLength hready hid h1 h2 h3]
      · simp
  · have hacc : receiveRawCommandAccesses m raw rawLength =
        { rawReads := [], argDataWrites := [], argStringWrites := [] } := by
      simp [receiveRawCommandAccesses, hready]
    rw [hacc]
    refine ⟨by simp, by simp, by simp, by omega, fun h => absurd h hready⟩

theorem C24_accesses_in_bounds_witness :
    (frameWithArgument 0 ∈ legalCommandIDs ∧ frameWithArgument 1 ∈ asciiHexDigits ∧
      frameWithArgument 2 ∈ asciiHexDigits ∧ frameWithArgument 3 ∈ asciiHexDigits ∧
      4 + (256 * hexDigitValue (frameWithArgument 1) + 16 * hexDigitValue (frameWithArgument 2) +
        hexDigitValue (frameWithArgument 3)) ≤ 7) ∧
    (∀ i ∈ (receiveRawCommandAccesses initialCommand frameWithArgument 7).rawReads, i < 7) ∧
    (∀ j ∈ (receiveRawCommandAccesses initialCommand frameWithArgument 7).argDataWrites,
      j < COMMAND_ARG_DATA_FIELD_MAX_LENGTH) ∧
    (∀ j ∈ (receiveRawCommandAccesses initialCommand frameWithArgument 7).argStringWrites,
      j < 4096) ∧
    256 * hexDigitValue (frameWithArgument 1) + 16 * hexDigitValue (frameWithArgument 2) +
      hexDigitValue (frameWithArgument 3) ≤ 4095 ∧
    (initialCommand.commandState = READY_FOR_COMMAND →
      (receiveRawCommandExit initialCommand frameWithArgument 7).2 = decode_exit.decoded ∧
      (receiveRawCommand initialCommand frameWithArgument 7).command.argLength =
        256 * hexDigitValue (frameWithArgument 1) + 16 * hexDigitValue (frameWithArgument 2) +
          hexDigitValue (frameWithArgument 3) ∧
      (receiveRawCommandAccesses initialCommand frameWithArgument 7).argDataWrites =
        List.range (256 * hexDigitValue (frameWithArgument 1) +
          16 * hexDigitValue (frameWithArgument 2) + hexDigitValue (frameWithArgument 3)) ∧
      (256 * hexDigitValue (frameWithArgument 1) + 16 * hexDigitValue (frameWithArgument 2) +
          hexDigitValue (frameWithArgument 3)) ∈
        (receiveRawCommandAccesses initialCommand frameWithArgument 7).argStringWrites) :=
  ⟨⟨by decide, by decide, by decide, by decide, by decide⟩,
    C24_accesses_in_bounds initialCommand frameWithArgument 7 (by decide) (by decide)
      (by decide) (by decide) (by decide)⟩

/-- C25: the zero-initialised `m_command` and the one `commandInit` returns
have `commandState` `READY_FOR_COMMAND` (value 0x00), and so has every state
reached from them by a sequence of the public operations `commandInit`,
`receiveRawCommand`, `validCommandReceived`, `executeCommand`, `currentCommand`
and `setCurrentCommand`; hence in such a state `receiveRawCommand` never leaves
through the dropping exit and `DECODING_COMMAND` is never observed. -/
theorem C25_always_ready (ops : List operation) :
    command_state_value zeroCommand.commandState = 0x00 ∧
    (∀ m : command_t, (commandInit m).commandState = READY_FOR_COMMAND) ∧
    (runOperations zeroCommand ops).commandState = READY_FOR_COMMAND ∧
    (runOperations initialCommand ops).commandState = READY_FOR_COMMAND ∧
    (∀ (m : command_t) (raw : Nat → Nat) (rawLength : Nat),
      (receiveRawCommandExit (runOperations (commandInit m) ops) raw rawLength).2
        ≠ decode_exit.dropped) ∧
    (∀ (raw : Nat → Nat) (rawLength : Nat),
      (receiveRawCommandExit (runOperations zeroCommand ops) raw rawLength).2
        ≠ decode_exit.dropped) ∧
    (runOperations zeroCommand ops).commandState ≠ DECODING_COMMAND ∧
    (∀ m : command_t, (runOperations (commandInit m) ops).commandState ≠ DECODING_COMMAND) := by
  have hz : (runOperations zeroCommand ops).commandState = READY_FOR_COMMAND :=
    runOperations_commandState zeroCommand ops rfl
  have hi : ∀ m : command_t,
      (runOperations (commandInit m) ops).commandState = READY_FOR_COMMAND :=
    fun m => runOperations_commandState (commandInit m) ops rfl
  have hexit : ∀ (s : command_t) (raw : Nat → Nat) (rawLength : Nat),
      s.commandState = READY_FOR_COMMAND →
      (receiveRawCommandExit s raw rawLength).2 ≠ decode_exit.dropped := by
    intro s raw rawLength hs
    unfold receiveRawCommandExit
    simp only [hs, ne_eq, not_true_eq_false, if_false]
    split_ifs <;> simp
  refine ⟨rfl, fun _ => rfl, hz, runOperations_commandState initialCommand ops rfl, ?_, ?_, ?_,
    ?_⟩
  · intro m raw rawLength
    exact hexit _ raw rawLength (hi m)
  · intro raw rawLength
    exact hexit _ raw rawLength hz
  · rw [hz]
    decide
  · intro m
    rw [hi m]
    decide

/-- C26: `bleEventInitiate` treats the message length as a 16-bit value.  For
every message of length `L` the preamble is "dataAvailable:" followed by
decimal digits whose value is `L mod 65536`, and the body fragments that
follow it hold `L mod 65536` bytes in all; for `10000 <= L <= 65535` the
preamble carries the five digits of `L` and is 19 bytes long; the preamble is
never longer than 20 bytes. -/
theorem C26_sixteen_bit_length (env : ble_env) (log : List action) (message : List Nat) :
    sendAttempts (bleEventInitiate env log message) =
      sendAttempts log ++ sprintf_dataAvailable (message.length % 65536) ::
        bodyFragments env log message ∧
    (sprintf_dataAvailable (message.length % 65536)).take 14 = cstr "dataAvailable:" ∧
    decimalValue ((sprintf_dataAvailable (message.length % 65536)).drop 14) =
      message.length % 65536 ∧
    (bodyFragments env log message).flatten.length = message.length % 65536 ∧
    (10000 ≤ message.length → message.length ≤ 65535 →
      sprintf_dataAvailable (message.length % 65536) =
        cstr "dataAvailable:" ++
          [48 + message.length / 10000, 48 + message.length / 1000 % 10,
            48 + message.length / 100 % 10, 48 + message.length / 10 % 10,
            48 + message.length % 10] ∧
      (sprintf_dataAvailable (message.length % 65536)).length = 19) ∧
    (sprintf_dataAvailable (message.length % 65536)).length ≤ 20 := by
  have hlt : message.length % 65536 < 65536 := Nat.mod_lt _ (by norm_num)
  have hd := sprintf_dataAvailable_drop (message.length % 65536)
  refine ⟨?_, hd.2, ?_, ?_, ?_, ?_⟩
  · rw [sendAttempts_bleEventInitiate, bodyFragments_eq]
  · rw [hd.1, decimalValue_fmt04d _ (by omega)]
  · rw [bodyFragments_eq, fragmentsOf_flatten, List.length_take,
      Nat.min_eq_left (Nat.mod_le _ _)]
  · intro hlo hhi
    have hmod : message.length % 65536 = message.length := Nat.mod_eq_of_lt (by omega)
    have hc : (cstr "dataAvailable:").length = 14 := by decide
    rw [hmod, sprintf_dataAvailable, fmt04d_eq_five _ hlo (by omega)]
    refine ⟨rfl, ?_⟩
    rw [List.length_append, hc]
    rfl
  · have := sprintf_dataAvailable_length _ hlt
    omega

end SimpleCommand
